import Mathlib

/-!
Verification of the personal-finance ledger `sistema_financeiro.py`
(classes `Transacao`, `Ativo`, `Conta`, `ContaCorrente`, `ContaInvestimento`,
`CartaoCredito`, `CompraCartao`, `Fatura`, `GerenciadorContas`).

Shallow embedding conventions:
* Python `float` amounts are modelled as `ℚ` (the arithmetic performed by the
  code is sign/comparison/ratio reasoning, which floats approximate).
* `str(uuid4())` identifier generation is modelled by passing the fresh
  identifier as an explicit argument of each operation.
* Python string primitives (`in`, `str.upper`, `str.replace`, `str.strip`)
  are implemented below on the character list of a `String`, so that every
  definition is executable by the kernel.
* File input and output in `salvar_dados`/`carregar_dados` is stripped: the
  snapshot dictionary built by `salvar_dados` is modelled as the structure
  `Snapshot`, and `carregar_dados` consumes it.  `date.isoformat` and
  `date.fromisoformat` (a Python standard-library inverse pair for valid
  dates) are modelled as the identity on the `Data` structure.
-/

namespace SistemaFinanceiro

/-- Is `pat` a prefix of `s`?  (character lists) -/
def listPrefixo (pat s : List Char) : Bool :=
  match pat, s with
  | [], _ => true
  | _ :: _, [] => false
  | p :: ps, c :: cs => p = c && listPrefixo ps cs

/-- Does `pat` occur contiguously inside `s`?  (character lists) -/
def listInfixo (pat s : List Char) : Bool :=
  match s with
  | [] => listPrefixo pat []
  | _ :: cs => listPrefixo pat s || listInfixo pat cs

/-- Python `sub in s` on strings. -/
def strContem (s sub : String) : Bool :=
  listInfixo sub.data s.data

/-- Python `s.upper()` (per-character uppercase). -/
def strUpper (s : String) : String :=
  ⟨s.data.map Char.toUpper⟩

/-- Replace every occurrence of the non-empty pattern `pat` by `rep`, as
Python `s.replace(pat, rep)`.  The `Nat` is recursion fuel (the scan consumes
at least one character per step, so any fuel of at least the list's length
gives the fixpoint; `listSubst` passes the length). -/
def listSubstAux (pat rep : List Char) : Nat → List Char → List Char
  | 0, s => s
  | _ + 1, [] => []
  | fuel + 1, c :: cs =>
    if pat ≠ [] ∧ listPrefixo pat (c :: cs) then
      rep ++ listSubstAux pat rep fuel ((c :: cs).drop pat.length)
    else
      c :: listSubstAux pat rep fuel cs

/-- Replace every occurrence of `pat` by `rep` in `s`. -/
def listSubst (pat rep s : List Char) : List Char :=
  listSubstAux pat rep s.length s

/-- Python `s.replace(pat, rep)`. -/
def strSubst (s pat rep : String) : String :=
  ⟨listSubst pat.data rep.data s.data⟩

/-- Python `s.strip()` (drop leading and trailing whitespace). -/
def strStrip (s : String) : String :=
  ⟨((s.data.dropWhile Char.isWhitespace).reverse.dropWhile Char.isWhitespace).reverse⟩

/-- A calendar date (`datetime.date`): year, month, day. -/
structure Data where
  ano : Nat
  mes : Nat
  dia : Nat
deriving DecidableEq, Repr

/-- Two-digit zero-padded rendering of a month/day number (Python `{:02d}`). -/
def pad2 (n : Nat) : String :=
  if n < 10 then "0" ++ Nat.repr n else Nat.repr n

/-- The `"YYYY-MM"` key used for `fechamentos_customizados`
(Python `f"{ano}-{mes:02d}"`). -/
def chaveMes (ano mes : Nat) : String :=
  Nat.repr ano ++ "-" ++ pad2 mes

/-- Python `data.strftime("%m/%Y")` as used in invoice-payment descriptions. -/
def mesBarraAno (d : Data) : String :=
  pad2 d.mes ++ "/" ++ Nat.repr d.ano

/-- Leap-year rule of the Gregorian calendar (`calendar.isleap`). -/
def anoBissexto (ano : Nat) : Bool :=
  ano % 4 == 0 && (ano % 100 != 0 || ano % 400 == 0)

/-- Days in a month (`calendar.monthrange(ano, mes)[1]`). -/
def diasNoMes (ano mes : Nat) : Nat :=
  if mes = 2 then (if anoBissexto ano then 29 else 28)
  else if mes = 4 ∨ mes = 6 ∨ mes = 9 ∨ mes = 11 then 30
  else 31

/-- A date is calendar-valid. -/
def Data.valida (d : Data) : Prop :=
  1 ≤ d.mes ∧ d.mes ≤ 12 ∧ 1 ≤ d.dia ∧ d.dia ≤ diasNoMes d.ano d.mes

instance : DecidablePred Data.valida := fun d =>
  inferInstanceAs (Decidable (_ ∧ _))

/-- Class `Transacao`: one ledger entry.  `id_transacao` is the uuid passed at
creation, `data` the transaction date. -/
structure Transacao where
  id_transacao : String
  id_conta : String
  descricao : String
  valor : ℚ
  tipo : String
  data : Data
  categoria : String
  observacao : String
  tag : String
deriving DecidableEq, Repr

/-- Class `Ativo`: one investment position.  The Python constructor upper-cases
the ticker; use `Ativo.novo` for creation sites. -/
structure Ativo where
  ticker : String
  quantidade : ℚ
  preco_medio : ℚ
  tipo_ativo : String
deriving DecidableEq, Repr

/-- `Ativo.__init__`: upper-cases the ticker. -/
def Ativo.novo (ticker : String) (quantidade preco_medio : ℚ)
    (tipo_ativo : String) : Ativo :=
  ⟨strUpper ticker, quantidade, preco_medio, tipo_ativo⟩

/-- Class `ContaCorrente` (checking account). -/
structure ContaCorrente where
  id_conta : String
  nome : String
  logo_url : String
  saldo : ℚ
  limite_cheque_especial : ℚ
  arquivada : Bool
deriving DecidableEq, Repr

/-- Class `ContaInvestimento` (investment account). -/
structure ContaInvestimento where
  id_conta : String
  nome : String
  logo_url : String
  saldo_caixa : ℚ
  ativos : List Ativo
  arquivada : Bool
deriving DecidableEq, Repr

/-- Abstract class `Conta` with its two concrete subclasses. -/
inductive Conta where
  | corrente (c : ContaCorrente)
  | investimento (c : ContaInvestimento)
deriving DecidableEq, Repr

/-- Shared `id_conta` attribute of both account subclasses. -/
def Conta.id_conta : Conta → String
  | .corrente c => c.id_conta
  | .investimento c => c.id_conta

/-- Shared `nome` attribute of both account subclasses. -/
def Conta.nome : Conta → String
  | .corrente c => c.nome
  | .investimento c => c.nome

/-- Class `CartaoCredito`.  `fechamentos_customizados` is the
`dict("YYYY-MM" → day)` of per-month closing-day overrides, modelled as an
association list. -/
structure CartaoCredito where
  id_cartao : String
  nome : String
  logo_url : String
  dia_fechamento : Nat
  dia_vencimento : Nat
  fechamentos_customizados : List (String × Nat)
deriving DecidableEq, Repr

/-- Class `CompraCartao`: one card charge (one installment).  `data_compra`
is the statement due date the charge was assigned to, `data_compra_real` the
real-world purchase date, `id_fatura` the invoice link (`None` while open). -/
structure CompraCartao where
  id_compra : String
  id_cartao : String
  descricao : String
  valor : ℚ
  data_compra : Data
  categoria : String
  total_parcelas : Nat
  parcela_atual : Nat
  id_compra_original : String
  observacao : String
  tag : String
  id_fatura : Option String
  data_compra_real : Data
deriving DecidableEq, Repr

/-- Class `Fatura`: a closed credit-card statement. -/
structure Fatura where
  id_fatura : String
  id_cartao : String
  data_fechamento : Data
  data_vencimento : Data
  valor_total : ℚ
  status : String
deriving DecidableEq, Repr

/-- The default category list installed by `GerenciadorContas.__init__`. -/
def categoriasPadrao : List String :=
  ["Alimentação", "Transporte", "Moradia", "Saúde", "Lazer",
   "Educação", "Impostos", "Investimentos", "Outros"]

/-- The mutable state of a `GerenciadorContas` (quotation caches and the file
path, which carry no ledger data, are omitted). -/
structure Estado where
  contas : List Conta
  transacoes : List Transacao
  cartoes_credito : List CartaoCredito
  compras_cartao : List CompraCartao
  faturas : List Fatura
  categorias : List String
  tags : List String
deriving DecidableEq, Repr

/-- Dictionary read with default (`dict.get(chave, padrao)`). -/
def dictGet (d : List (String × Nat)) (chave : String) (padrao : Nat) : Nat :=
  match d.find? (fun kv => kv.1 == chave) with
  | some kv => kv.2
  | none => padrao

/-- Dictionary write (`d[chave] = v`): overwrite the first binding of the key,
or append a new binding. -/
def dictSet (d : List (String × Nat)) (chave : String) (v : Nat) :
    List (String × Nat) :=
  if d.any (fun kv => kv.1 == chave) then
    d.map (fun kv => if kv.1 == chave then (kv.1, v) else kv)
  else
    d ++ [(chave, v)]

/-- Replace the first element satisfying `p` by its image under `f`
(the Python code mutates, in place, the object found by a linear search). -/
def atualizarPrimeiro (p : α → Bool) (f : α → α) : List α → List α
  | [] => []
  | x :: xs => if p x then f x :: xs else x :: atualizarPrimeiro p f xs

/-- `GerenciadorContas.buscar_conta_por_id`. -/
def buscarContaPorId (g : Estado) (id_conta : String) : Option Conta :=
  g.contas.find? (fun c => c.id_conta == id_conta)

/-- `GerenciadorContas.buscar_cartao_por_id`. -/
def buscarCartaoPorId (g : Estado) (id_cartao : String) : Option CartaoCredito :=
  g.cartoes_credito.find? (fun c => c.id_cartao == id_cartao)

/-- Replace (in place) the account with the given id. -/
def atualizarConta (contas : List Conta) (id_conta : String)
    (f : Conta → Conta) : List Conta :=
  atualizarPrimeiro (fun c => c.id_conta == id_conta) f contas

/-- `ContaInvestimento.atualizar_ou_adicionar_ativo`: merge a buy of
`quantidade` units at `preco_medio` into the first holding with the same
(upper-cased ticker, asset class), recomputing the weighted average; append a
new `Ativo` if none matches.  A merged quantity that is not positive is
written back as `0.0` with the holding kept in the list. -/
def atualizarOuAdicionarAtivo (ativos : List Ativo) (ticker : String)
    (quantidade preco_medio : ℚ) (tipo_ativo : String) : List Ativo :=
  match ativos with
  | [] => [Ativo.novo ticker quantidade preco_medio tipo_ativo]
  | a :: resto =>
    if a.ticker == strUpper ticker && a.tipo_ativo == tipo_ativo then
      let nova_qtd := a.quantidade + quantidade
      (if 0 < nova_qtd then
        { a with
          preco_medio :=
            (a.preco_medio * a.quantidade + preco_medio * quantidade) / nova_qtd,
          quantidade := nova_qtd }
      else
        { a with quantidade := 0 }) :: resto
    else
      a :: atualizarOuAdicionarAtivo resto ticker quantidade preco_medio tipo_ativo

/-- `GerenciadorContas.registrar_transacao`.  `tid` is the uuid of the new
entry.  Returns the Python boolean together with the successor state. -/
def registrarTransacao (g : Estado) (id_conta descricao : String) (valor : ℚ)
    (tipo : String) (data_transacao : Data) (categoria observacao tag : String)
    (tid : String) : Bool × Estado :=
  match buscarContaPorId g id_conta with
  | none => (false, g)
  | some conta =>
    let nova : Transacao :=
      ⟨tid, id_conta, descricao, valor, tipo, data_transacao, categoria,
        observacao, tag⟩
    let ok (contas' : List Conta) : Bool × Estado :=
      (true, { g with contas := contas', transacoes := g.transacoes ++ [nova] })
    match conta with
    | .corrente c =>
      if tipo == "Receita" then
        ok (atualizarConta g.contas id_conta (fun x =>
          match x with
          | .corrente cc => .corrente { cc with saldo := cc.saldo + valor }
          | y => y))
      else if tipo == "Despesa" then
        if c.saldo + c.limite_cheque_especial < valor then (false, g)
        else
          ok (atualizarConta g.contas id_conta (fun x =>
            match x with
            | .corrente cc => .corrente { cc with saldo := cc.saldo - valor }
            | y => y))
      else ok g.contas
    | .investimento c =>
      if tipo == "Receita" then
        ok (atualizarConta g.contas id_conta (fun x =>
          match x with
          | .investimento ci =>
            .investimento { ci with saldo_caixa := ci.saldo_caixa + valor }
          | y => y))
      else if tipo == "Despesa" then
        if c.saldo_caixa < valor then (false, g)
        else
          ok (atualizarConta g.contas id_conta (fun x =>
            match x with
            | .investimento ci =>
              .investimento { ci with saldo_caixa := ci.saldo_caixa - valor }
            | y => y))
      else ok g.contas

/-- `GerenciadorContas.realizar_transferencia`.  `hoje` models `date.today()`;
`tid1`, `tid2` are the uuids of the two transfer legs.  The source is checked
against its disposable funds; the destination is credited unconditionally. -/
def realizarTransferencia (g : Estado) (id_origem id_destino : String)
    (valor : ℚ) (hoje : Data) (tid1 tid2 : String) : Bool × Estado :=
  if id_origem == id_destino then (false, g)
  else
    match buscarContaPorId g id_origem, buscarContaPorId g id_destino with
    | some conta_origem, some conta_destino =>
      let debito : Option (List Conta) :=
        match conta_origem with
        | .corrente c =>
          if c.saldo + c.limite_cheque_especial < valor then none
          else some (atualizarConta g.contas id_origem (fun x =>
            match x with
            | .corrente cc => .corrente { cc with saldo := cc.saldo - valor }
            | y => y))
        | .investimento c =>
          if c.saldo_caixa < valor then none
          else some (atualizarConta g.contas id_origem (fun x =>
            match x with
            | .investimento ci =>
              .investimento { ci with saldo_caixa := ci.saldo_caixa - valor }
            | y => y))
      match debito with
      | none => (false, g)
      | some contas1 =>
        let contas2 := atualizarConta contas1 id_destino (fun x =>
          match x with
          | .corrente cc => .corrente { cc with saldo := cc.saldo + valor }
          | .investimento ci =>
            .investimento { ci with saldo_caixa := ci.saldo_caixa + valor })
        let t1 : Transacao :=
          ⟨tid1, id_origem, "Transferência para " ++ conta_destino.nome, valor,
            "Despesa", hoje, "Transferência", "", ""⟩
        let t2 : Transacao :=
          ⟨tid2, id_destino, "Transferência de " ++ conta_origem.nome, valor,
            "Receita", hoje, "Transferência", "", ""⟩
        (true, { g with contas := contas2,
                        transacoes := g.transacoes ++ [t1, t2] })
    | _, _ => (false, g)

/-- `GerenciadorContas.comprar_ativo`.  `tid` is the uuid of the posted
`Transacao`.  Fails when the account is missing or not an investment account
or when `saldo_caixa < custo`. -/
def comprarAtivo (g : Estado) (id_conta_destino ticker : String)
    (quantidade preco_unitario : ℚ) (tipo_ativo : String) (data_compra : Data)
    (tid : String) : Bool × Estado :=
  match buscarContaPorId g id_conta_destino with
  | some (.investimento c) =>
    let custo := quantidade * preco_unitario
    if c.saldo_caixa < custo then (false, g)
    else
      let contas' := atualizarConta g.contas id_conta_destino (fun x =>
        match x with
        | .investimento ci =>
          .investimento { ci with
            saldo_caixa := ci.saldo_caixa - custo,
            ativos := atualizarOuAdicionarAtivo ci.ativos ticker quantidade
              preco_unitario tipo_ativo }
        | y => y)
      let nova : Transacao :=
        ⟨tid, c.id_conta, "Compra de " ++ ticker, custo, "Despesa",
          data_compra, "Investimentos", "", ""⟩
      (true, { g with contas := contas',
                      transacoes := g.transacoes ++ [nova] })
  | _ => (false, g)

/-- Display-only rendering of an amount with two decimals, standing in for the
Python f-string `{x:.2f}` in sale descriptions (half-up instead of the float
half-even; the rendered text influences no balance or control flow). -/
def fmt2 (x : ℚ) : String :=
  let n : Int := Int.floor (x * 100 + 1 / 2)
  let a := n.natAbs
  (if n < 0 then "-" else "") ++ Nat.repr (a / 100) ++ "." ++ pad2 (a % 100)

/-- Display-only rendering of a percentage with an explicit plus sign,
standing in for the Python f-string `{x:+.2f}`. -/
def fmt2Sinal (x : ℚ) : String :=
  if 0 ≤ x then "+" ++ fmt2 x else fmt2 x

/-- The sale description built by `vender_ativo`, embedding the realized
profit or loss and its percentage. -/
def descricaoVenda (ticker : String) (lucro_prejuizo lucro_prejuizo_pct : ℚ)
    (observacao : String) : String :=
  let base :=
    if 0 ≤ lucro_prejuizo then
      "Venda de " ++ ticker ++ " | Lucro: R$ " ++ fmt2 lucro_prejuizo ++ " (" ++
        fmt2Sinal lucro_prejuizo_pct ++ "%)"
    else
      "Venda de " ++ ticker ++ " | Prejuízo: R$ " ++ fmt2 (-lucro_prejuizo) ++
        " (" ++ fmt2 lucro_prejuizo_pct ++ "%)"
  if observacao == "" then base else base ++ " | " ++ observacao

/-- `GerenciadorContas.vender_ativo`.  The Python function receives the sale
date as a `"%Y-%m-%d"` string and parses it; here the parsed date `data_venda`
is passed directly.  The human-readable message of the returned pair carries
no state and is omitted; the returned boolean and the successor state are
kept.  The holding is matched by raw ticker equality alone (no asset-class
filter), and when the sold quantity empties it, every holding with that
ticker is dropped. -/
def venderAtivo (g : Estado) (id_conta ticker : String)
    (quantidade preco_venda : ℚ) (data_venda : Data) (observacao : String)
    (tid : String) : Bool × Estado :=
  match buscarContaPorId g id_conta with
  | some (.investimento c) =>
    match c.ativos.find? (fun a => a.ticker == ticker) with
    | none => (false, g)
    | some ativo =>
      if ativo.quantidade < quantidade then (false, g)
      else
        let valor_venda := quantidade * preco_venda
        let custo_medio := quantidade * ativo.preco_medio
        let lucro_prejuizo := valor_venda - custo_medio
        let lucro_prejuizo_pct :=
          if 0 < custo_medio then lucro_prejuizo / custo_medio * 100 else 0
        let descricao :=
          descricaoVenda ticker lucro_prejuizo lucro_prejuizo_pct observacao
        let ativos' :=
          if ativo.quantidade - quantidade ≤ 0 then
            c.ativos.filter (fun a => a.ticker != ticker)
          else
            atualizarPrimeiro (fun a => a.ticker == ticker)
              (fun a => { a with quantidade := a.quantidade - quantidade })
              c.ativos
        let contas' := atualizarConta g.contas id_conta (fun x =>
          match x with
          | .investimento ci =>
            .investimento { ci with
              saldo_caixa := ci.saldo_caixa + valor_venda, ativos := ativos' }
          | y => y)
        let nova : Transacao :=
          ⟨tid, id_conta, descricao, valor_venda, "Receita", data_venda,
            "Venda de Investimento", "", ""⟩
        (true, { g with contas := contas',
                        transacoes := g.transacoes ++ [nova] })
  | _ => (false, g)

/-- `GerenciadorContas.remover_transacao`: remove an entry by id, reversing
its balance effect; an investment-purchase expense (category
`"Investimentos"` with `"Compra de"` in the description) additionally
reverses `valor / preco_medio` units of the first holding whose upper-cased
ticker matches the description, dropping every such holding when the
remainder is at most `0.000001`.  The cash is refunded and the entry removed
in every found case; there is no failure path for an over-large reversal. -/
def removerTransacao (g : Estado) (id_transacao : String) : Bool × Estado :=
  match g.transacoes.find? (fun t => t.id_transacao == id_transacao) with
  | none => (false, g)
  | some transacao =>
    match buscarContaPorId g transacao.id_conta with
    | none => (false, g)
    | some _ =>
      let contas' :=
        if transacao.tipo == "Receita" then
          atualizarConta g.contas transacao.id_conta (fun x =>
            match x with
            | .corrente cc =>
              .corrente { cc with saldo := cc.saldo - transacao.valor }
            | .investimento ci =>
              .investimento
                { ci with saldo_caixa := ci.saldo_caixa - transacao.valor })
        else if transacao.tipo == "Despesa" then
          atualizarConta g.contas transacao.id_conta (fun x =>
            match x with
            | .corrente cc =>
              .corrente { cc with saldo := cc.saldo + transacao.valor }
            | .investimento ci =>
              let ci' :=
                if transacao.categoria == "Investimentos" &&
                    strContem transacao.descricao "Compra de" then
                  let ticker_desc :=
                    strStrip (strSubst transacao.descricao "Compra de " "")
                  match ci.ativos.find? (fun a =>
                      strUpper a.ticker == strUpper ticker_desc) with
                  | some ativo =>
                    let quantidade_comprada := transacao.valor / ativo.preco_medio
                    if ativo.quantidade - quantidade_comprada ≤ 1 / 1000000 then
                      let ativos' := ci.ativos.filter (fun a =>
                        strUpper a.ticker != strUpper ticker_desc)
                      { ci with ativos := ativos' }
                    else
                      let ativos' := atualizarPrimeiro
                        (fun a => strUpper a.ticker == strUpper ticker_desc)
                        (fun a =>
                          { a with quantidade :=
                              a.quantidade - quantidade_comprada })
                        ci.ativos
                      { ci with ativos := ativos' }
                  | none => ci
                else ci
              .investimento
                { ci' with saldo_caixa := ci'.saldo_caixa + transacao.valor })
        else g.contas
      (true, { g with contas := contas',
                      transacoes := g.transacoes.filter (fun t =>
                        t.id_transacao != id_transacao) })

/-- `GerenciadorContas.pagar_fatura`: pay an invoice from a checking account.
Fails when the invoice is missing or already `"Paga"`, the account is missing
or not a `ContaCorrente`, or disposable funds are insufficient; otherwise
debits the account, marks the invoice `"Paga"` and posts one expense entry
described `"Pagamento Fatura MM/YYYY"`. -/
def pagarFatura (g : Estado) (id_fatura id_conta_pagamento : String)
    (data_pagamento : Data) (tid : String) : Bool × Estado :=
  match g.faturas.find? (fun f => f.id_fatura == id_fatura) with
  | none => (false, g)
  | some fatura =>
    if fatura.status == "Paga" then (false, g)
    else
      match buscarContaPorId g id_conta_pagamento with
      | some (.corrente c) =>
        let valor := fatura.valor_total
        if c.saldo + c.limite_cheque_especial < valor then (false, g)
        else
          let contas' := atualizarConta g.contas id_conta_pagamento (fun x =>
            match x with
            | .corrente cc => .corrente { cc with saldo := cc.saldo - valor }
            | y => y)
          let faturas' := atualizarPrimeiro (fun f => f.id_fatura == id_fatura)
            (fun f => { f with status := "Paga" }) g.faturas
          let nova : Transacao :=
            ⟨tid, c.id_conta,
              "Pagamento Fatura " ++ mesBarraAno fatura.data_vencimento, valor,
              "Despesa", data_pagamento, "Cartão de Crédito", "", ""⟩
          (true, { g with contas := contas', faturas := faturas',
                          transacoes := g.transacoes ++ [nova] })
      | _ => (false, g)

/-- The search `reabrir_fatura` performs for the payment entry of a paid
invoice: first transaction of category `"Cartão de Crédito"` whose
description contains both `"Pagamento Fatura MM/YYYY"` and the card's name. -/
def buscarTransacaoPagamento (g : Estado) (fatura : Fatura) : Option Transacao :=
  g.transacoes.find? (fun t =>
    t.categoria == "Cartão de Crédito" &&
    strContem t.descricao
      ("Pagamento Fatura " ++ mesBarraAno fatura.data_vencimento) &&
    (match buscarCartaoPorId g fatura.id_cartao with
     | some cartao => strContem t.descricao cartao.nome
     | none => false))

/-- The refund half of `reabrir_fatura`: when the invoice was `"Paga"` and
the payment entry is located (see `buscarTransacaoPagamento`) on an existing
checking account, the amount is credited back and that entry removed;
otherwise the state is unchanged. -/
def reabrirEstorno (g : Estado) (fatura : Fatura) : Estado :=
  if fatura.status == "Paga" then
    match buscarTransacaoPagamento g fatura with
    | some t =>
      match buscarContaPorId g t.id_conta with
      | some (.corrente _) =>
        let contas' := atualizarConta g.contas t.id_conta (fun x =>
          match x with
          | .corrente cc =>
            .corrente { cc with saldo := cc.saldo + t.valor }
          | y => y)
        let transacoes' := g.transacoes.eraseP (fun u =>
          u.id_transacao == t.id_transacao)
        { g with contas := contas', transacoes := transacoes' }
      | _ => g
    | none => g
  else g

/-- `GerenciadorContas.reabrir_fatura`: reopen an invoice.  The refund step
is `reabrirEstorno`; in every case all the invoice's charges are unlinked
(`id_fatura := none`), the invoice is deleted, and `true` is returned. -/
def reabrirFatura (g : Estado) (id_fatura : String) : Bool × Estado :=
  match g.faturas.find? (fun f => f.id_fatura == id_fatura) with
  | none => (false, g)
  | some fatura =>
    let g1 := reabrirEstorno g fatura
    let compras' := g1.compras_cartao.map (fun c =>
      if c.id_fatura == some id_fatura then { c with id_fatura := none } else c)
    (true, { g1 with compras_cartao := compras',
                     faturas := g1.faturas.eraseP (fun f =>
                       f.id_fatura == id_fatura) })

/-- `GerenciadorContas.fechar_fatura` (the later definition in the class body,
which shadows the earlier one): close the cycle given by the real closing
date's (year, month).  Gathers the card's open charges of that cycle; if none
returns `None`, otherwise creates a `Fatura` (uuid `fid`) totalling them,
links the charges, and records the closing day as a custom closing for the
month when it differs from the card's nominal `dia_fechamento`. -/
def fecharFatura (g : Estado) (id_cartao : String)
    (data_fechamento_real data_vencimento_real : Data) (fid : String) :
    Option Fatura × Estado :=
  match buscarCartaoPorId g id_cartao with
  | none => (none, g)
  | some cartao =>
    let ano_ciclo := data_fechamento_real.ano
    let mes_ciclo := data_fechamento_real.mes
    let eCicloAberto (c : CompraCartao) : Bool :=
      c.id_cartao == id_cartao && c.data_compra.ano == ano_ciclo &&
        c.data_compra.mes == mes_ciclo && c.id_fatura == none
    let compras_do_ciclo := g.compras_cartao.filter eCicloAberto
    if compras_do_ciclo.isEmpty then (none, g)
    else
      let valor_total := (compras_do_ciclo.map (fun c => c.valor)).sum
      let nova : Fatura :=
        ⟨fid, id_cartao, data_fechamento_real, data_vencimento_real,
          valor_total, "Fechada"⟩
      let compras' := g.compras_cartao.map (fun c =>
        if eCicloAberto c then { c with id_fatura := some fid } else c)
      let cartoes' :=
        if data_fechamento_real.dia ≠ cartao.dia_fechamento then
          atualizarPrimeiro (fun ct => ct.id_cartao == id_cartao)
            (fun ct =>
              let fc := dictSet ct.fechamentos_customizados
                (chaveMes ano_ciclo mes_ciclo) data_fechamento_real.dia
              { ct with fechamentos_customizados := fc })
            g.cartoes_credito
        else g.cartoes_credito
      (some nova, { g with faturas := g.faturas ++ [nova],
                           compras_cartao := compras',
                           cartoes_credito := cartoes' })

/-- `GerenciadorContas.calcular_ciclo_compra`: the billing cycle (year, month)
a purchase dated `data_compra` belongs to.  The effective closing day is the
custom closing registered for the purchase's `"YYYY-MM"`, else the card's
`dia_fechamento`; a purchase day strictly greater rolls to the next calendar
month (December to January). -/
def calcularCicloCompra (g : Estado) (id_cartao : String) (data_compra : Data) :
    Nat × Nat :=
  match buscarCartaoPorId g id_cartao with
  | none => (data_compra.ano, data_compra.mes)
  | some cartao =>
    let dia_fechamento := dictGet cartao.fechamentos_customizados
      (chaveMes data_compra.ano data_compra.mes) cartao.dia_fechamento
    if data_compra.dia > dia_fechamento then
      if data_compra.mes == 12 then (data_compra.ano + 1, 1)
      else (data_compra.ano, data_compra.mes + 1)
    else (data_compra.ano, data_compra.mes)

/-- The account record written by `Conta.para_dict`, with the `"tipo"`
discriminator as the constructor (the remaining entity records serialize
field-for-field, see `Snapshot`). -/
inductive ContaDict where
  | corrente (id_conta nome logo_url : String) (saldo limite_cheque_especial : ℚ)
      (arquivada : Bool)
  | investimento (id_conta nome logo_url : String) (saldo_caixa : ℚ)
      (ativos : List Ativo) (arquivada : Bool)
deriving DecidableEq, Repr

/-- The JSON snapshot dictionary built by `salvar_dados`.  Every non-account
entity's `para_dict` writes each constructor field verbatim (dates as
`isoformat` strings, inverted losslessly by `parse_date_safe` on valid dates,
modelled as identity), so those lists are carried structurally; accounts keep
their subtype discriminator. -/
structure Snapshot where
  contas : List ContaDict
  transacoes : List Transacao
  cartoes_credito : List CartaoCredito
  compras_cartao : List CompraCartao
  faturas : List Fatura
  categorias : List String
  tags : List String
deriving DecidableEq, Repr

/-- `ContaCorrente.para_dict` / `ContaInvestimento.para_dict`. -/
def salvarConta : Conta → ContaDict
  | .corrente c =>
    .corrente c.id_conta c.nome c.logo_url c.saldo c.limite_cheque_especial
      c.arquivada
  | .investimento c =>
    .investimento c.id_conta c.nome c.logo_url c.saldo_caixa c.ativos
      c.arquivada

/-- `GerenciadorContas.salvar_dados`: the snapshot dictionary (the file write
itself is I/O and out of the model). -/
def salvarDados (g : Estado) : Snapshot :=
  ⟨g.contas.map salvarConta, g.transacoes, g.cartoes_credito, g.compras_cartao,
    g.faturas, g.categorias, g.tags⟩

/-- The account reconstruction in `carregar_dados`: dispatch on `"tipo"`; the
`Ativo` constructor upper-cases each loaded ticker. -/
def carregarConta : ContaDict → Conta
  | .corrente id_conta nome logo_url saldo limite arquivada =>
    .corrente ⟨id_conta, nome, logo_url, saldo, limite, arquivada⟩
  | .investimento id_conta nome logo_url saldo_caixa ativos arquivada =>
    .investimento ⟨id_conta, nome, logo_url, saldo_caixa,
      ativos.map (fun a => Ativo.novo a.ticker a.quantidade a.preco_medio
        a.tipo_ativo),
      arquivada⟩

/-- The charge reconstruction in `carregar_dados`: the `CompraCartao`
constructor falls back to `id_compra` when the loaded
`id_compra_original` is falsy (empty). -/
def carregarCompra (c : CompraCartao) : CompraCartao :=
  if c.id_compra_original == "" then { c with id_compra_original := c.id_compra }
  else c

/-- `GerenciadorContas.carregar_dados` on a parsed snapshot.
`categorias_atuais` is the category list the manager holds before loading
(the default list on a fresh manager): the loader keeps it unless the
snapshot's category list is a non-empty list.  Dates and uuids saved by
`salvar_dados` are always present, so the loader's `dict.get` defaults and
`uuid4()` fallbacks for absent fields cannot fire and are not modelled. -/
def carregarDados (snap : Snapshot) (categorias_atuais : List String) : Estado :=
  { contas := snap.contas.map carregarConta,
    transacoes := snap.transacoes,
    cartoes_credito := snap.cartoes_credito,
    compras_cartao := snap.compras_cartao.map carregarCompra,
    faturas := snap.faturas,
    categorias :=
      if snap.categorias.isEmpty then categorias_atuais else snap.categorias,
    tags := snap.tags }

/-- One call to a mutating ledger operation, with the nondeterministic inputs
(fresh uuids, the clock) as explicit fields. -/
inductive Op where
  | registrar (id_conta descricao : String) (valor : ℚ) (tipo : String)
      (dt : Data) (categoria observacao tag tid : String)
  | transferir (id_origem id_destino : String) (valor : ℚ) (hoje : Data)
      (tid1 tid2 : String)
  | comprar (id_conta ticker : String) (quantidade preco_unitario : ℚ)
      (tipo_ativo : String) (dt : Data) (tid : String)
  | vender (id_conta ticker : String) (quantidade preco_venda : ℚ) (dt : Data)
      (observacao tid : String)
  | pagar (id_fatura id_conta : String) (dt : Data) (tid : String)
  | reabrir (id_fatura : String)
  | remover (id_transacao : String)

/-- Dispatch one operation to its implementation. -/
def Op.aplicar : Op → Estado → Bool × Estado
  | .registrar id_conta descricao valor tipo dt categoria observacao tag tid,
      g => registrarTransacao g id_conta descricao valor tipo dt categoria
        observacao tag tid
  | .transferir id_origem id_destino valor hoje tid1 tid2, g =>
    realizarTransferencia g id_origem id_destino valor hoje tid1 tid2
  | .comprar id_conta ticker quantidade preco_unitario tipo_ativo dt tid, g =>
    comprarAtivo g id_conta ticker quantidade preco_unitario tipo_ativo dt tid
  | .vender id_conta ticker quantidade preco_venda dt observacao tid, g =>
    venderAtivo g id_conta ticker quantidade preco_venda dt observacao tid
  | .pagar id_fatura id_conta dt tid, g => pagarFatura g id_fatura id_conta dt tid
  | .reabrir id_fatura, g => reabrirFatura g id_fatura
  | .remover id_transacao, g => removerTransacao g id_transacao

/-- Run a sequence of operations, each on the state left by the previous one
(a failed operation leaves the state unchanged). -/
def executar (g : Estado) (ops : List Op) : Estado :=
  ops.foldl (fun s op => (op.aplicar s).2) g

/-- The per-account balance invariant: a checking account stays within its
overdraft limit, an investment account's cash never goes negative. -/
def contaOk : Conta → Prop
  | .corrente c => -c.limite_cheque_especial ≤ c.saldo
  | .investimento c => 0 ≤ c.saldo_caixa

instance : DecidablePred contaOk := fun c =>
  match c with
  | .corrente _ => inferInstanceAs (Decidable (_ ≤ _))
  | .investimento _ => inferInstanceAs (Decidable (_ ≤ _))

/-- The balance invariant over the whole state. -/
def saldosOk (g : Estado) : Prop := ∀ c ∈ g.contas, contaOk c

instance : DecidablePred saldosOk := fun g =>
  inferInstanceAs (Decidable (∀ c ∈ g.contas, contaOk c))

/-- Stored amounts are nonnegative: every ledger entry's `valor` and every
invoice's `valor_total`. -/
def valoresOk (g : Estado) : Prop :=
  (∀ t ∈ g.transacoes, 0 ≤ t.valor) ∧ (∀ f ∈ g.faturas, 0 ≤ f.valor_total)

instance : DecidablePred valoresOk := fun g =>
  inferInstanceAs (Decidable (_ ∧ _))

/-- The inductive invariant used for the balance-preservation argument. -/
def invariante (g : Estado) : Prop := saldosOk g ∧ valoresOk g

instance : DecidablePred invariante := fun g =>
  inferInstanceAs (Decidable (_ ∧ _))

/-- Amount arguments of one operation are nonnegative, and the operation is
not `remover_transacao`. -/
def Op.entradaSegura : Op → Prop
  | .registrar _ _ valor _ _ _ _ _ _ => 0 ≤ valor
  | .transferir _ _ valor _ _ _ => 0 ≤ valor
  | .comprar _ _ quantidade preco_unitario _ _ _ =>
    0 ≤ quantidade ∧ 0 ≤ preco_unitario
  | .vender _ _ quantidade preco_venda _ _ _ => 0 ≤ quantidade ∧ 0 ≤ preco_venda
  | .pagar _ _ _ _ => True
  | .reabrir _ => True
  | .remover _ => False

instance : DecidablePred Op.entradaSegura := fun op =>
  match op with
  | .registrar _ _ _ _ _ _ _ _ _ => inferInstanceAs (Decidable (_ ≤ _))
  | .transferir _ _ _ _ _ _ => inferInstanceAs (Decidable (_ ≤ _))
  | .comprar _ _ _ _ _ _ _ => inferInstanceAs (Decidable (_ ∧ _))
  | .vender _ _ _ _ _ _ _ => inferInstanceAs (Decidable (_ ∧ _))
  | .pagar _ _ _ _ => inferInstanceAs (Decidable True)
  | .reabrir _ => inferInstanceAs (Decidable True)
  | .remover _ => inferInstanceAs (Decidable False)

theorem pres_atualizarPrimeiro_mono {α} {P : α → Prop} {p : α → Bool}
    {f : α → α} {l : List α} (hall : ∀ x ∈ l, P x)
    (hf : ∀ x ∈ l, P x → P (f x)) :
    ∀ x ∈ atualizarPrimeiro p f l, P x := by
  induction l with
  | nil => simp [atualizarPrimeiro]
  | cons y ys ih =>
    intro x hx
    by_cases hp : p y
    · simp only [atualizarPrimeiro, if_pos hp, List.mem_cons] at hx
      rcases hx with rfl | hx
      · exact hf y (by simp) (hall y (by simp))
      · exact hall x (by simp [hx])
    · simp only [atualizarPrimeiro, if_neg hp, List.mem_cons] at hx
      rcases hx with rfl | hx
      · exact hall x (by simp)
      · exact ih (fun z hz => hall z (by simp [hz]))
          (fun z hz => hf z (by simp [hz])) x hx

theorem pres_atualizarPrimeiro_find {α} {P : α → Prop} {p : α → Bool}
    {f : α → α} {l : List α} {a : α} (hfind : l.find? p = some a)
    (hall : ∀ x ∈ l, P x) (hfa : P (f a)) :
    ∀ x ∈ atualizarPrimeiro p f l, P x := by
  induction l with
  | nil => simp [atualizarPrimeiro]
  | cons y ys ih =>
    intro x hx
    by_cases hp : p y
    · rw [List.find?_cons_of_pos _ hp, Option.some_inj] at hfind
      subst hfind
      simp only [atualizarPrimeiro, if_pos hp, List.mem_cons] at hx
      rcases hx with rfl | hx
      · exact hfa
      · exact hall x (by simp [hx])
    · rw [List.find?_cons_of_neg _ hp] at hfind
      simp only [atualizarPrimeiro, if_neg hp, List.mem_cons] at hx
      rcases hx with rfl | hx
      · exact hall x (by simp)
      · exact ih hfind (fun z hz => hall z (by simp [hz])) x hx

theorem valores_append {l : List Transacao} {v : Transacao}
    (h : ∀ t ∈ l, 0 ≤ t.valor) (hv : 0 ≤ v.valor) :
    ∀ t ∈ l ++ [v], 0 ≤ t.valor := by
  intro t ht
  rcases List.mem_append.mp ht with ht | ht
  · exact h t ht
  · rcases List.mem_singleton.mp ht with rfl
    exact hv

theorem registrarTransacao_invariante {g : Estado} {id_conta descricao : String}
    {valor : ℚ} {tipo : String} {dt : Data} {categoria observacao tag tid : String}
    (hval : 0 ≤ valor) (hg : invariante g) :
    invariante (registrarTransacao g id_conta descricao valor tipo dt categoria
      observacao tag tid).2 := by
  obtain ⟨hs, ht, hf⟩ := hg
  rcases hb : buscarContaPorId g id_conta with _ | conta
  · simpa [registrarTransacao, hb] using ⟨hs, ht, hf⟩
  cases conta with
  | corrente c =>
    by_cases h1 : (tipo == "Receita") = true
    · simp only [registrarTransacao, hb, h1, if_true]
      refine ⟨?_, valores_append ht hval, hf⟩
      refine pres_atualizarPrimeiro_mono hs ?_
      rintro (⟨x⟩ | ⟨x⟩) hx hPx
      · simp only [contaOk] at hPx ⊢
        linarith
      · exact hPx
    · by_cases h2 : (tipo == "Despesa") = true
      · by_cases h3 : c.saldo + c.limite_cheque_especial < valor
        · simpa [registrarTransacao, hb, h1, h2, h3] using ⟨hs, ht, hf⟩
        · simp only [registrarTransacao, hb, h1, h2, if_true,
            Bool.false_eq_true, if_false, if_neg h3]
          refine ⟨?_, valores_append ht hval, hf⟩
          refine pres_atualizarPrimeiro_find hb hs ?_
          simp only [contaOk]
          linarith [not_lt.mp h3]
      · simp only [registrarTransacao, hb, h1, h2, Bool.false_eq_true, if_false]
        exact ⟨hs, valores_append ht hval, hf⟩
  | investimento c =>
    by_cases h1 : (tipo == "Receita") = true
    · simp only [registrarTransacao, hb, h1, if_true]
      refine ⟨?_, valores_append ht hval, hf⟩
      refine pres_atualizarPrimeiro_mono hs ?_
      rintro (⟨x⟩ | ⟨x⟩) hx hPx
      · exact hPx
      · simp only [contaOk] at hPx ⊢
        linarith
    · by_cases h2 : (tipo == "Despesa") = true
      · by_cases h3 : c.saldo_caixa < valor
        · simpa [registrarTransacao, hb, h1, h2, h3] using ⟨hs, ht, hf⟩
        · simp only [registrarTransacao, hb, h1, h2, if_true,
            Bool.false_eq_true, if_false, if_neg h3]
          refine ⟨?_, valores_append ht hval, hf⟩
          refine pres_atualizarPrimeiro_find hb hs ?_
          simp only [contaOk]
          linarith [not_lt.mp h3]
      · simp only [registrarTransacao, hb, h1, h2, Bool.false_eq_true, if_false]
        exact ⟨hs, valores_append ht hval, hf⟩

theorem contaOk_credito {valor : ℚ} (hval : 0 ≤ valor) :
    ∀ x, contaOk x → contaOk (match x with
      | .corrente cc => .corrente { cc with saldo := cc.saldo + valor }
      | .investimento ci =>
        .investimento { ci with saldo_caixa := ci.saldo_caixa + valor }) := by
  rintro (⟨x⟩ | ⟨x⟩) hPx
  · simp only [contaOk] at hPx ⊢
    linarith
  · simp only [contaOk] at hPx ⊢
    linarith

theorem realizarTransferencia_invariante {g : Estado}
    {id_origem id_destino : String} {valor : ℚ} {hoje : Data}
    {tid1 tid2 : String} (hval : 0 ≤ valor) (hg : invariante g) :
    invariante (realizarTransferencia g id_origem id_destino valor hoje tid1
      tid2).2 := by
  obtain ⟨hs, ht, hf⟩ := hg
  by_cases h0 : (id_origem == id_destino) = true
  · simpa [realizarTransferencia, h0] using ⟨hs, ht, hf⟩
  rcases hbo : buscarContaPorId g id_origem with _ | co
  · simpa [realizarTransferencia, h0, hbo] using ⟨hs, ht, hf⟩
  rcases hbd : buscarContaPorId g id_destino with _ | cd
  · simpa [realizarTransferencia, h0, hbo, hbd] using ⟨hs, ht, hf⟩
  have hvalores : ∀ t ∈ g.transacoes ++
      [(⟨tid1, id_origem, "Transferência para " ++ cd.nome, valor, "Despesa",
          hoje, "Transferência", "", ""⟩ : Transacao),
        ⟨tid2, id_destino, "Transferência de " ++ co.nome, valor, "Receita",
          hoje, "Transferência", "", ""⟩], 0 ≤ t.valor := by
    intro t htm
    rcases List.mem_append.mp htm with htm | htm
    · exact ht t htm
    · rcases List.mem_cons.mp htm with rfl | htm
      · exact hval
      · rcases List.mem_singleton.mp htm with rfl
        exact hval
  cases co with
  | corrente c =>
    by_cases h3 : c.saldo + c.limite_cheque_especial < valor
    · simpa [realizarTransferencia, h0, hbo, hbd, h3] using ⟨hs, ht, hf⟩
    · simp only [realizarTransferencia, h0, Bool.false_eq_true, if_false, hbo,
        hbd, if_neg h3]
      refine ⟨?_, hvalores, hf⟩
      refine pres_atualizarPrimeiro_mono ?_ (fun x _ => contaOk_credito hval x)
      refine pres_atualizarPrimeiro_find hbo hs ?_
      simp only [contaOk]
      linarith [not_lt.mp h3]
  | investimento c =>
    by_cases h3 : c.saldo_caixa < valor
    · simpa [realizarTransferencia, h0, hbo, hbd, h3] using ⟨hs, ht, hf⟩
    · simp only [realizarTransferencia, h0, Bool.false_eq_true, if_false, hbo,
        hbd, if_neg h3]
      refine ⟨?_, hvalores, hf⟩
      refine pres_atualizarPrimeiro_mono ?_ (fun x _ => contaOk_credito hval x)
      refine pres_atualizarPrimeiro_find hbo hs ?_
      simp only [contaOk]
      linarith [not_lt.mp h3]

theorem comprarAtivo_invariante {g : Estado} {id_conta_destino ticker : String}
    {quantidade preco_unitario : ℚ} {tipo_ativo : String} {data_compra : Data}
    {tid : String} (hq : 0 ≤ quantidade) (hp : 0 ≤ preco_unitario)
    (hg : invariante g) :
    invariante (comprarAtivo g id_conta_destino ticker quantidade
      preco_unitario tipo_ativo data_compra tid).2 := by
  obtain ⟨hs, ht, hf⟩ := hg
  rcases hb : buscarContaPorId g id_conta_destino with _ | conta
  · simpa [comprarAtivo, hb] using ⟨hs, ht, hf⟩
  cases conta with
  | corrente c => simpa [comprarAtivo, hb] using ⟨hs, ht, hf⟩
  | investimento c =>
    by_cases h3 : c.saldo_caixa < quantidade * preco_unitario
    · simpa [comprarAtivo, hb, h3] using ⟨hs, ht, hf⟩
    · simp only [comprarAtivo, hb, if_neg h3]
      refine ⟨?_, valores_append ht (mul_nonneg hq hp), hf⟩
      refine pres_atualizarPrimeiro_find hb hs ?_
      simp only [contaOk]
      linarith [not_lt.mp h3]

theorem venderAtivo_invariante {g : Estado} {id_conta ticker : String}
    {quantidade preco_venda : ℚ} {data_venda : Data} {observacao tid : String}
    (hq : 0 ≤ quantidade) (hp : 0 ≤ preco_venda) (hg : invariante g) :
    invariante (venderAtivo g id_conta ticker quantidade preco_venda data_venda
      observacao tid).2 := by
  obtain ⟨hs, ht, hf⟩ := hg
  rcases hb : buscarContaPorId g id_conta with _ | conta
  · simpa [venderAtivo, hb] using ⟨hs, ht, hf⟩
  cases conta with
  | corrente c => simpa [venderAtivo, hb] using ⟨hs, ht, hf⟩
  | investimento c =>
    rcases ha : c.ativos.find? (fun a => a.ticker == ticker) with _ | ativo
    · simpa [venderAtivo, hb, ha] using ⟨hs, ht, hf⟩
    by_cases h3 : ativo.quantidade < quantidade
    · simpa [venderAtivo, hb, ha, h3] using ⟨hs, ht, hf⟩
    · simp only [venderAtivo, hb, ha, if_neg h3]
      refine ⟨?_, valores_append ht (mul_nonneg hq hp), hf⟩
      have hOkConta := hs _ (List.mem_of_find?_eq_some hb)
      refine pres_atualizarPrimeiro_find hb hs ?_
      simp only [contaOk] at hOkConta ⊢
      nlinarith

theorem pagarFatura_invariante {g : Estado}
    {id_fatura id_conta_pagamento : String} {data_pagamento : Data}
    {tid : String} (hg : invariante g) :
    invariante (pagarFatura g id_fatura id_conta_pagamento data_pagamento
      tid).2 := by
  obtain ⟨hs, ht, hf⟩ := hg
  rcases hb : g.faturas.find? (fun f => f.id_fatura == id_fatura) with _ | fatura
  · simpa [pagarFatura, hb] using ⟨hs, ht, hf⟩
  by_cases h1 : (fatura.status == "Paga") = true
  · simpa [pagarFatura, hb, h1] using ⟨hs, ht, hf⟩
  rcases hc : buscarContaPorId g id_conta_pagamento with _ | conta
  · simpa [pagarFatura, hb, h1, hc] using ⟨hs, ht, hf⟩
  cases conta with
  | investimento c => simpa [pagarFatura, hb, h1, hc] using ⟨hs, ht, hf⟩
  | corrente c =>
    have hfat : 0 ≤ fatura.valor_total := hf _ (List.mem_of_find?_eq_some hb)
    by_cases h3 : c.saldo + c.limite_cheque_especial < fatura.valor_total
    · simpa [pagarFatura, hb, h1, hc, h3] using ⟨hs, ht, hf⟩
    · simp only [pagarFatura, hb, h1, Bool.false_eq_true, if_false, hc,
        if_neg h3]
      refine ⟨?_, valores_append ht hfat, ?_⟩
      · refine pres_atualizarPrimeiro_find hc hs ?_
        simp only [contaOk]
        linarith [not_lt.mp h3]
      · refine pres_atualizarPrimeiro_mono hf ?_
        intro x _ hx
        exact hx

theorem mem_of_eraseP {l : List α} {p : α → Bool} {x : α}
    (hx : x ∈ l.eraseP p) : x ∈ l :=
  List.Sublist.subset (List.eraseP_sublist l) hx

theorem reabrirEstorno_invariante {g : Estado} {fatura : Fatura}
    (hg : invariante g) : invariante (reabrirEstorno g fatura) := by
  obtain ⟨hs, ht, hf⟩ := hg
  by_cases h1 : (fatura.status == "Paga") = true
  · rcases hbt : buscarTransacaoPagamento g fatura with _ | t
    · simpa [reabrirEstorno, h1, hbt] using ⟨hs, ht, hf⟩
    rcases hc : buscarContaPorId g t.id_conta with _ | conta
    · simpa [reabrirEstorno, h1, hbt, hc] using ⟨hs, ht, hf⟩
    cases conta with
    | investimento c => simpa [reabrirEstorno, h1, hbt, hc] using ⟨hs, ht, hf⟩
    | corrente c =>
      have hval : 0 ≤ t.valor := ht _ (List.mem_of_find?_eq_some hbt)
      simp only [reabrirEstorno, h1, hbt, hc, if_true]
      refine ⟨?_, fun u hu => ht u (mem_of_eraseP hu), hf⟩
      refine pres_atualizarPrimeiro_mono hs ?_
      rintro (⟨x⟩ | ⟨x⟩) hx hPx
      · simp only [contaOk] at hPx ⊢
        linarith
      · exact hPx
  · simpa [reabrirEstorno, h1] using ⟨hs, ht, hf⟩

theorem reabrirFatura_invariante {g : Estado} {id_fatura : String}
    (hg : invariante g) : invariante (reabrirFatura g id_fatura).2 := by
  rcases hb : g.faturas.find? (fun f => f.id_fatura == id_fatura) with _ | fatura
  · simpa [reabrirFatura, hb] using hg
  obtain ⟨hs, ht, hf⟩ := @reabrirEstorno_invariante g fatura hg
  simp only [reabrirFatura, hb]
  exact ⟨hs, ht, fun f hfm => hf f (mem_of_eraseP hfm)⟩

theorem Op.aplicar_invariante {op : Op} {g : Estado} (hop : op.entradaSegura)
    (hg : invariante g) : invariante (op.aplicar g).2 := by
  cases op with
  | registrar id_conta descricao valor tipo dt categoria observacao tag tid =>
    exact registrarTransacao_invariante hop hg
  | transferir id_origem id_destino valor hoje tid1 tid2 =>
    exact realizarTransferencia_invariante hop hg
  | comprar id_conta ticker quantidade preco_unitario tipo_ativo dt tid =>
    exact comprarAtivo_invariante hop.1 hop.2 hg
  | vender id_conta ticker quantidade preco_venda dt observacao tid =>
    exact venderAtivo_invariante hop.1 hop.2 hg
  | pagar id_fatura id_conta dt tid => exact pagarFatura_invariante hg
  | reabrir id_fatura => exact reabrirFatura_invariante hg
  | remover id_transacao => exact hop.elim

theorem executar_invariante {ops : List Op} {g : Estado}
    (hops : ∀ op ∈ ops, op.entradaSegura) (hg : invariante g) :
    invariante (executar g ops) := by
  induction ops generalizing g with
  | nil => simpa [executar] using hg
  | cons op rest ih =>
    have h1 : invariante (op.aplicar g).2 :=
      Op.aplicar_invariante (hops op (by simp)) hg
    simpa [executar] using ih (fun o ho => hops o (by simp [ho])) h1

/-- C2, amended: Starting from a state satisfying the balance invariant
in which every stored entry and invoice carries a nonnegative amount, every
sequence of `registrar_transacao`, `realizar_transferencia`, `comprar_ativo`,
`vender_ativo`, `pagar_fatura` and `reabrir_fatura` calls whose amount
arguments are nonnegative — successful or not — keeps, after each operation,
every `ContaCorrente` at `saldo ≥ -limite_cheque_especial` and every
`ContaInvestimento` at `saldo_caixa ≥ 0`.  (The original claim also allowed
`remover_transacao`, which violates the invariant: see the counterexample.) -/
theorem saldos_preservados_por_operacoes_seguras (g : Estado) (ops : List Op)
    (hg : invariante g) (hops : ∀ op ∈ ops, op.entradaSegura) (n : ℕ) :
    saldosOk (executar g (ops.take n)) :=
  (executar_invariante
    (fun op ho => hops op (List.take_subset n ops ho)) hg).1

/-- Witness for C2 (amended): a deposit followed by a transfer, from a
two-account state, keeps the balances within their limits. -/
theorem saldos_preservados_por_operacoes_seguras_witness :
    invariante
      ⟨[.corrente ⟨"a", "Banco A", "", 0, 0, false⟩,
        .corrente ⟨"b", "Banco B", "", 0, 0, false⟩],
       [], [], [], [], categoriasPadrao, []⟩ ∧
    saldosOk (executar
      ⟨[.corrente ⟨"a", "Banco A", "", 0, 0, false⟩,
        .corrente ⟨"b", "Banco B", "", 0, 0, false⟩],
       [], [], [], [], categoriasPadrao, []⟩
      (List.take 2
        [.registrar "a" "Depósito" 100 "Receita" ⟨2025, 12, 10⟩ "Outros" ""
          "" "t1",
         .transferir "a" "b" 100 ⟨2025, 12, 10⟩ "t2" "t3"])) :=
  ⟨by decide,
    saldos_preservados_por_operacoes_seguras _ _ (by decide) (by decide) 2⟩

/-- The three-step scenario refuting C2 as stated: a deposit of 100 into a
zero-balance checking account, a transfer of the 100 away, and then
`remover_transacao` of the deposit entry. -/
def cenarioC2 : Estado :=
  ⟨[.corrente ⟨"a", "Banco A", "", 0, 0, false⟩,
    .corrente ⟨"b", "Banco B", "", 0, 0, false⟩],
   [], [], [], [], categoriasPadrao, []⟩

/-- The operation sequence of the C2 counterexample. -/
def opsC2 : List Op :=
  [.registrar "a" "Depósito" 100 "Receita" ⟨2025, 12, 10⟩ "Outros" "" "" "t1",
   .transferir "a" "b" 100 ⟨2025, 12, 10⟩ "t2" "t3",
   .remover "t1"]

/-- Booleans returned by a sequence of operations, in order. -/
def resultados (g : Estado) (ops : List Op) : List Bool :=
  (ops.foldl (fun (acc : List Bool × Estado) op =>
    ((acc.1 ++ [(op.aplicar acc.2).1]), (op.aplicar acc.2).2)) ([], g)).1

/-- C2 as stated is false: From a state satisfying the invariant, the
three operations of `opsC2` — the last being `remover_transacao` — all
return `True`, yet afterwards account `"a"` has `saldo = -100` below its
overdraft limit `0`. -/
theorem saldos_nao_preservados_por_remover_transacao :
    invariante cenarioC2 ∧
    resultados cenarioC2 opsC2 = [true, true, true] ∧
    ¬ saldosOk (executar cenarioC2 opsC2) := by
  refine ⟨by decide, ?_, ?_⟩
  · simp [cenarioC2, opsC2, resultados, Op.aplicar, registrarTransacao,
      realizarTransferencia, removerTransacao, buscarContaPorId,
      atualizarConta, atualizarPrimeiro, List.find?, Conta.id_conta,
      Conta.nome]
  · simp [cenarioC2, opsC2, executar, Op.aplicar, registrarTransacao,
      realizarTransferencia, removerTransacao, buscarContaPorId,
      atualizarConta, atualizarPrimeiro, saldosOk, contaOk, List.find?,
      Conta.id_conta, Conta.nome]

/-- Every holding of an account has positive quantity (trivial for checking
accounts). -/
def contaAtivosPositivos : Conta → Prop
  | .corrente _ => True
  | .investimento ci => ∀ a ∈ ci.ativos, 0 < a.quantidade

instance : DecidablePred contaAtivosPositivos := fun c =>
  match c with
  | .corrente _ => inferInstanceAs (Decidable True)
  | .investimento ci =>
    inferInstanceAs (Decidable (∀ a ∈ ci.ativos, 0 < a.quantidade))

/-- Every holding of every account in the state has positive quantity. -/
def ativosPositivos (g : Estado) : Prop :=
  ∀ c ∈ g.contas, contaAtivosPositivos c

instance : DecidablePred ativosPositivos := fun g =>
  inferInstanceAs (Decidable (∀ c ∈ g.contas, contaAtivosPositivos c))

/-- No account holds an `Ativo` with `quantidade = 0` (trivial for checking
accounts). -/
def contaSemAtivoZerado : Conta → Prop
  | .corrente _ => True
  | .investimento ci => ∀ a ∈ ci.ativos, a.quantidade ≠ 0

/-- No investment account's holdings list contains an `Ativo` with
`quantidade = 0`. -/
def semAtivoZerado (g : Estado) : Prop :=
  ∀ c ∈ g.contas, contaSemAtivoZerado c

/-- The operation is one of `comprar_ativo` (with positive quantity),
`vender_ativo`, `remover_transacao`. -/
def Op.opDeAtivos : Op → Prop
  | .comprar _ _ quantidade _ _ _ _ => 0 < quantidade
  | .vender _ _ _ _ _ _ _ => True
  | .remover _ => True
  | _ => False

instance : DecidablePred Op.opDeAtivos := fun op =>
  match op with
  | .registrar _ _ _ _ _ _ _ _ _ => inferInstanceAs (Decidable False)
  | .transferir _ _ _ _ _ _ => inferInstanceAs (Decidable False)
  | .comprar _ _ _ _ _ _ _ => inferInstanceAs (Decidable (_ < _))
  | .vender _ _ _ _ _ _ _ => inferInstanceAs (Decidable True)
  | .pagar _ _ _ _ => inferInstanceAs (Decidable False)
  | .reabrir _ => inferInstanceAs (Decidable False)
  | .remover _ => inferInstanceAs (Decidable True)

theorem atualizarOuAdicionarAtivo_positivo {ativos : List Ativo}
    {ticker : String} {quantidade preco_medio : ℚ} {tipo_ativo : String}
    (hq : 0 < quantidade) (hall : ∀ a ∈ ativos, 0 < a.quantidade) :
    ∀ a ∈ atualizarOuAdicionarAtivo ativos ticker quantidade preco_medio
      tipo_ativo, 0 < a.quantidade := by
  induction ativos with
  | nil =>
    intro a ha
    rcases List.mem_singleton.mp ha with rfl
    exact hq
  | cons b resto ih =>
    intro a ha
    by_cases hm : (b.ticker == strUpper ticker && b.tipo_ativo == tipo_ativo)
        = true
    · have hb : 0 < b.quantidade := hall b (by simp)
      have hq' : 0 < b.quantidade + quantidade := by linarith
      simp only [atualizarOuAdicionarAtivo, hm, if_true, if_pos hq',
        List.mem_cons] at ha
      rcases ha with rfl | ha
      · exact hq'
      · exact hall a (by simp [ha])
    · simp only [atualizarOuAdicionarAtivo, hm, Bool.false_eq_true, if_false,
        List.mem_cons] at ha
      rcases ha with rfl | ha
      · exact hall a (by simp)
      · exact ih (fun z hz => hall z (by simp [hz])) a ha

theorem comprarAtivo_ativosPositivos {g : Estado}
    {id_conta_destino ticker : String} {quantidade preco_unitario : ℚ}
    {tipo_ativo : String} {data_compra : Data} {tid : String}
    (hq : 0 < quantidade) (hg : ativosPositivos g) :
    ativosPositivos (comprarAtivo g id_conta_destino ticker quantidade
      preco_unitario tipo_ativo data_compra tid).2 := by
  rcases hb : buscarContaPorId g id_conta_destino with _ | conta
  · simpa [comprarAtivo, hb] using hg
  cases conta with
  | corrente c => simpa [comprarAtivo, hb] using hg
  | investimento c =>
    by_cases h3 : c.saldo_caixa < quantidade * preco_unitario
    · simpa [comprarAtivo, hb, h3] using hg
    · simp only [comprarAtivo, hb, if_neg h3]
      have hc : contaAtivosPositivos (.investimento c) :=
        hg _ (List.mem_of_find?_eq_some hb)
      refine pres_atualizarPrimeiro_find hb hg ?_
      exact atualizarOuAdicionarAtivo_positivo hq hc

theorem venderAtivo_ativosPositivos {g : Estado} {id_conta ticker : String}
    {quantidade preco_venda : ℚ} {data_venda : Data} {observacao tid : String}
    (hg : ativosPositivos g) :
    ativosPositivos (venderAtivo g id_conta ticker quantidade preco_venda
      data_venda observacao tid).2 := by
  rcases hb : buscarContaPorId g id_conta with _ | conta
  · simpa [venderAtivo, hb] using hg
  cases conta with
  | corrente c => simpa [venderAtivo, hb] using hg
  | investimento c =>
    rcases ha : c.ativos.find? (fun a => a.ticker == ticker) with _ | ativo
    · simpa [venderAtivo, hb, ha] using hg
    by_cases h3 : ativo.quantidade < quantidade
    · simpa [venderAtivo, hb, ha, h3] using hg
    simp only [venderAtivo, hb, ha, if_neg h3]
    have hc : contaAtivosPositivos (.investimento c) :=
      hg _ (List.mem_of_find?_eq_some hb)
    refine pres_atualizarPrimeiro_find hb hg ?_
    by_cases h4 : ativo.quantidade - quantidade ≤ 0
    · simp only [contaAtivosPositivos, if_pos h4]
      intro a hafilter
      exact hc a (List.mem_of_mem_filter hafilter)
    · simp only [contaAtivosPositivos, if_neg h4]
      refine pres_atualizarPrimeiro_find ha hc ?_
      simpa using lt_of_not_le h4

theorem removerTransacao_ativosPositivos {g : Estado} {id_transacao : String}
    (hg : ativosPositivos g) :
    ativosPositivos (removerTransacao g id_transacao).2 := by
  rcases htf : g.transacoes.find? (fun t => t.id_transacao == id_transacao)
    with _ | transacao
  · simpa [removerTransacao, htf] using hg
  rcases hb : buscarContaPorId g transacao.id_conta with _ | conta
  · simpa [removerTransacao, htf, hb] using hg
  have hc : contaAtivosPositivos conta := hg _ (List.mem_of_find?_eq_some hb)
  by_cases h1 : (transacao.tipo == "Receita") = true
  · simp only [removerTransacao, htf, hb, h1, if_true]
    refine pres_atualizarPrimeiro_mono hg ?_
    rintro (⟨x⟩ | ⟨x⟩) hx hPx
    · trivial
    · exact hPx
  · by_cases h2 : (transacao.tipo == "Despesa") = true
    · simp only [removerTransacao, htf, hb, h1, h2, if_true,
        Bool.false_eq_true, if_false]
      refine pres_atualizarPrimeiro_mono hg ?_
      rintro (⟨x⟩ | ⟨x⟩) hx hPx
      · trivial
      · by_cases h5 : (transacao.categoria == "Investimentos" &&
            strContem transacao.descricao "Compra de") = true
        · simp only [h5, if_true]
          rcases haf : x.ativos.find? (fun a => strUpper a.ticker ==
              strUpper (strStrip (strSubst transacao.descricao "Compra de " "")))
            with _ | ativo
          · simpa [haf] using hPx
          · simp only [haf]
            by_cases h6 : ativo.quantidade -
                transacao.valor / ativo.preco_medio ≤ 1 / 1000000
            · simp only [if_pos h6]
              intro a hafilter
              exact hPx a (List.mem_of_mem_filter hafilter)
            · simp only [if_neg h6]
              refine pres_atualizarPrimeiro_find haf hPx ?_
              have : (0 : ℚ) < 1 / 1000000 := by norm_num
              simp only
              linarith [lt_of_not_le h6]
        · simpa [h5] using hPx
    · simpa [removerTransacao, htf, hb, h1, h2] using hg

theorem Op.aplicar_ativosPositivos {op : Op} {g : Estado}
    (hop : op.opDeAtivos) (hg : ativosPositivos g) :
    ativosPositivos (op.aplicar g).2 := by
  cases op with
  | comprar id_conta ticker quantidade preco_unitario tipo_ativo dt tid =>
    exact comprarAtivo_ativosPositivos hop hg
  | vender id_conta ticker quantidade preco_venda dt observacao tid =>
    exact venderAtivo_ativosPositivos hg
  | remover id_transacao => exact removerTransacao_ativosPositivos hg
  | registrar id_conta descricao valor tipo dt categoria observacao tag tid =>
    exact hop.elim
  | transferir id_origem id_destino valor hoje tid1 tid2 => exact hop.elim
  | pagar id_fatura id_conta dt tid => exact hop.elim
  | reabrir id_fatura => exact hop.elim

theorem executar_ativosPositivos {ops : List Op} {g : Estado}
    (hops : ∀ op ∈ ops, op.opDeAtivos) (hg : ativosPositivos g) :
    ativosPositivos (executar g ops) := by
  induction ops generalizing g with
  | nil => simpa [executar] using hg
  | cons op rest ih =>
    have h1 : ativosPositivos (op.aplicar g).2 :=
      Op.aplicar_ativosPositivos (hops op (by simp)) hg
    simpa [executar] using ih (fun o ho => hops o (by simp [ho])) h1

/-- C5, amended: Starting from a state whose holdings all have positive
quantity, after any sequence of `comprar_ativo` with positive `quantidade`,
`vender_ativo` and `remover_transacao` calls, no investment account's
holdings list contains an `Ativo` with `quantidade = 0`.  (The original claim
did not restrict the purchase quantity; `comprar_ativo` with `quantidade = 0`
creates — and with a negative quantity can write back — a zero-quantity
holding that stays in the list: see the counterexample.) -/
theorem ativos_zerados_sao_removidos (g : Estado) (ops : List Op)
    (hg : ativosPositivos g) (hops : ∀ op ∈ ops, op.opDeAtivos) (n : ℕ) :
    semAtivoZerado (executar g (ops.take n)) := by
  have hpos := executar_ativosPositivos
    (fun op ho => hops op (List.take_subset n ops ho)) hg
  rintro (⟨c⟩ | ⟨c⟩) hc
  · trivial
  · intro a ha
    exact ne_of_gt (hpos _ hc a ha)

/-- Witness for C5 (amended): a buy merging into an existing holding, then a
sale of part of the position, leave no zero-quantity holding. -/
theorem ativos_zerados_sao_removidos_witness :
    ativosPositivos
      ⟨[.investimento ⟨"inv1", "Corretora", "", 1000,
          [⟨"AAA", 2, 10, "Outro"⟩], false⟩], [], [], [], [],
        categoriasPadrao, []⟩ ∧
    semAtivoZerado (executar
      ⟨[.investimento ⟨"inv1", "Corretora", "", 1000,
          [⟨"AAA", 2, 10, "Outro"⟩], false⟩], [], [], [], [],
        categoriasPadrao, []⟩
      (List.take 2
        [.comprar "inv1" "AAA" 3 20 "Outro" ⟨2025, 12, 10⟩ "t1",
         .vender "inv1" "AAA" 1 30 ⟨2025, 12, 11⟩ "" "t2"])) :=
  ⟨by decide, ativos_zerados_sao_removidos _ _ (by decide) (by decide) 2⟩

/-- The single-account state of the C5 counterexample. -/
def cenarioC5 : Estado :=
  ⟨[.investimento ⟨"inv1", "Corretora", "", 1000, [], false⟩],
   [], [], [], [], categoriasPadrao, []⟩

/-- C5 as stated is false: `comprar_ativo` of quantity `0` (a call of
one of the three operations the claim ranges over) returns `True` and leaves
the holding `⟨"X", 0, 10, "Outro"⟩` — quantity zero — in the account's
holdings list. -/
theorem ativo_zerado_permanece_na_lista :
    (Op.aplicar (.comprar "inv1" "X" 0 10 "Outro" ⟨2025, 12, 10⟩ "t1")
      cenarioC5).1 = true ∧
    ¬ semAtivoZerado
      (Op.aplicar (.comprar "inv1" "X" 0 10 "Outro" ⟨2025, 12, 10⟩ "t1")
        cenarioC5).2 := by
  have hX : strUpper "X" = "X" := by decide
  have hEval : Op.aplicar (.comprar "inv1" "X" 0 10 "Outro" ⟨2025, 12, 10⟩
      "t1") cenarioC5 =
      (true,
        ⟨[.investimento ⟨"inv1", "Corretora", "", 1000,
            [⟨"X", 0, 10, "Outro"⟩], false⟩],
         [⟨"t1", "inv1", "Compra de X", 0, "Despesa", ⟨2025, 12, 10⟩,
            "Investimentos", "", ""⟩],
         [], [], [], categoriasPadrao, []⟩) := by
    simp [cenarioC5, Op.aplicar, comprarAtivo, buscarContaPorId,
      Conta.id_conta, List.find?, atualizarConta, atualizarPrimeiro,
      atualizarOuAdicionarAtivo, Ativo.novo, hX]
  rw [hEval]
  refine ⟨rfl, fun hcontra => ?_⟩
  have h1 := hcontra
    (.investimento ⟨"inv1", "Corretora", "", 1000,
      [⟨"X", 0, 10, "Outro"⟩], false⟩) (by simp)
  exact h1 ⟨"X", 0, 10, "Outro"⟩ (by simp) rfl

/-- Disposable funds of the account are smaller than `valor`: for a
`ContaCorrente`, `saldo + limite_cheque_especial < valor`; for a
`ContaInvestimento`, `saldo_caixa < valor`. -/
def contaSemFundos : Conta → ℚ → Prop
  | .corrente c, valor => c.saldo + c.limite_cheque_especial < valor
  | .investimento c, valor => c.saldo_caixa < valor

instance : ∀ c v, Decidable (contaSemFundos c v) := fun c v =>
  match c with
  | .corrente _ => inferInstanceAs (Decidable (_ < _))
  | .investimento _ => inferInstanceAs (Decidable (_ < _))

/-- C4, amended: `realizar_transferencia` returns `False` exactly when
the source id equals the destination id, either account id is unknown, or the
source account lacks disposable funds — and in every failing case the state
(balances and transaction list included) is unchanged.  (The original claim
also listed `amount ≤ 0` as a failure condition; the code performs no such
check: see the counterexample, a transfer of `0` that returns `True`.) -/
theorem transferencia_falha_exatamente_sem_fundos (g : Estado)
    (id_origem id_destino : String) (valor : ℚ) (hoje : Data)
    (tid1 tid2 : String) :
    ((realizarTransferencia g id_origem id_destino valor hoje tid1 tid2).1 =
        false ↔
      id_origem = id_destino ∨ buscarContaPorId g id_origem = none ∨
        buscarContaPorId g id_destino = none ∨
        (∃ c, buscarContaPorId g id_origem = some c ∧
          contaSemFundos c valor)) ∧
    ((realizarTransferencia g id_origem id_destino valor hoje tid1 tid2).1 =
        false →
      (realizarTransferencia g id_origem id_destino valor hoje tid1 tid2).2 =
        g) := by
  by_cases h0 : (id_origem == id_destino) = true
  · simp only [realizarTransferencia, h0, if_true]
    simp only [beq_iff_eq] at h0
    simp [h0]
  · have h0' : ¬ id_origem = id_destino := by simpa using h0
    rcases hbo : buscarContaPorId g id_origem with _ | co
    · simp [realizarTransferencia, h0, hbo]
    rcases hbd : buscarContaPorId g id_destino with _ | cd
    · simp [realizarTransferencia, h0, hbo, hbd]
    have hcar : ∀ c, buscarContaPorId g id_origem = some c ∧
        contaSemFundos c valor ↔ c = co ∧ contaSemFundos co valor := by
      intro c
      constructor
      · rintro ⟨hc, hf⟩
        rw [hbo, Option.some_inj] at hc
        subst hc
        exact ⟨rfl, hf⟩
      · rintro ⟨rfl, hf⟩
        exact ⟨hbo, hf⟩
    cases co with
    | corrente c =>
      by_cases h3 : c.saldo + c.limite_cheque_especial < valor
      · simp [realizarTransferencia, h0, hbo, hbd, h3, h0', contaSemFundos]
      · simp [realizarTransferencia, h0, hbo, hbd, h3, h0', hcar,
          contaSemFundos]
    | investimento c =>
      by_cases h3 : c.saldo_caixa < valor
      · simp [realizarTransferencia, h0, hbo, hbd, h3, h0', contaSemFundos]
      · simp [realizarTransferencia, h0, hbo, hbd, h3, h0', hcar,
          contaSemFundos]

/-- Witness for C4 (amended): a transfer of 50 from an account with balance
20 and no overdraft fails and leaves the two-account state untouched. -/
theorem transferencia_falha_exatamente_sem_fundos_witness :
    (realizarTransferencia
      ⟨[.corrente ⟨"a", "Banco A", "", 20, 0, false⟩,
        .corrente ⟨"b", "Banco B", "", 0, 0, false⟩],
       [], [], [], [], categoriasPadrao, []⟩
      "a" "b" 50 ⟨2025, 12, 10⟩ "t1" "t2").1 = false ∧
    (realizarTransferencia
      ⟨[.corrente ⟨"a", "Banco A", "", 20, 0, false⟩,
        .corrente ⟨"b", "Banco B", "", 0, 0, false⟩],
       [], [], [], [], categoriasPadrao, []⟩
      "a" "b" 50 ⟨2025, 12, 10⟩ "t1" "t2").2 =
      ⟨[.corrente ⟨"a", "Banco A", "", 20, 0, false⟩,
        .corrente ⟨"b", "Banco B", "", 0, 0, false⟩],
       [], [], [], [], categoriasPadrao, []⟩ := by
  have h := transferencia_falha_exatamente_sem_fundos
    ⟨[.corrente ⟨"a", "Banco A", "", 20, 0, false⟩,
      .corrente ⟨"b", "Banco B", "", 0, 0, false⟩],
     [], [], [], [], categoriasPadrao, []⟩
    "a" "b" 50 ⟨2025, 12, 10⟩ "t1" "t2"
  have hfalse := h.1.mpr (by
    refine Or.inr (Or.inr (Or.inr ⟨.corrente ⟨"a", "Banco A", "", 20, 0,
      false⟩, ?_, ?_⟩))
    · simp [buscarContaPorId, List.find?, Conta.id_conta]
    · show (20 : ℚ) + 0 < 50
      norm_num)
  exact ⟨hfalse, h.2 hfalse⟩

/-- The two-account state of the C4 counterexample. -/
def cenarioC4 : Estado :=
  ⟨[.corrente ⟨"a", "Banco A", "", 0, 0, false⟩,
    .corrente ⟨"b", "Banco B", "", 0, 0, false⟩],
   [], [], [], [], categoriasPadrao, []⟩

/-- C4 as stated is false: A transfer of amount `0 ≤ 0` between two
distinct existing accounts returns `True` (and posts its two legs), where
the claim requires `False` for every amount `≤ 0`. -/
theorem transferencia_de_valor_zero_sucede :
    (realizarTransferencia cenarioC4 "a" "b" 0 ⟨2025, 12, 10⟩ "t1" "t2").1 =
      true ∧
    (realizarTransferencia cenarioC4 "a" "b" 0 ⟨2025, 12, 10⟩ "t1"
        "t2").2.transacoes.length = 2 := by
  constructor <;>
    simp [cenarioC4, realizarTransferencia, buscarContaPorId, List.find?,
      Conta.id_conta, Conta.nome, atualizarConta, atualizarPrimeiro]

theorem atualizarPrimeiro_congr {p : α → Bool} {f f' : α → α} {l : List α}
    {a : α} (hfind : l.find? p = some a) (hfa : f a = f' a) :
    atualizarPrimeiro p f l = atualizarPrimeiro p f' l := by
  induction l with
  | nil => rfl
  | cons y ys ih =>
    by_cases hp : p y
    · rw [List.find?_cons_of_pos _ hp, Option.some_inj] at hfind
      subst hfind
      simp [atualizarPrimeiro, hp, hfa]
    · rw [List.find?_cons_of_neg _ hp] at hfind
      simp [atualizarPrimeiro, hp, ih hfind]

/-- The behavior the specification ascribes to `postTransaction`
(`registrar_transacao`): fail with no mutation on an unknown account or on an
`Expense` exceeding the account's disposable funds; otherwise apply exactly
the debit (`"Despesa"`) or credit (`"Receita"`) to the account and append
exactly the one matching entry, together. -/
def registrarTransacaoSpec (g : Estado) (id_conta descricao : String)
    (valor : ℚ) (tipo : String) (data_transacao : Data)
    (categoria observacao tag : String) (tid : String) : Bool × Estado :=
  match buscarContaPorId g id_conta with
  | none => (false, g)
  | some conta =>
    if tipo = "Despesa" ∧ contaSemFundos conta valor then (false, g)
    else
      let contas' := atualizarConta g.contas id_conta (fun x =>
        match x, tipo == "Despesa" with
        | .corrente cc, true => .corrente { cc with saldo := cc.saldo - valor }
        | .corrente cc, false => .corrente { cc with saldo := cc.saldo + valor }
        | .investimento ci, true =>
          .investimento { ci with saldo_caixa := ci.saldo_caixa - valor }
        | .investimento ci, false =>
          .investimento { ci with saldo_caixa := ci.saldo_caixa + valor })
      (true, { g with contas := contas',
                      transacoes := g.transacoes ++
                        [⟨tid, id_conta, descricao, valor, tipo, data_transacao,
                          categoria, observacao, tag⟩] })

/-- C8: For the two entry kinds `"Receita"` and `"Despesa"`,
`registrar_transacao` coincides with `registrarTransacaoSpec`: it fails with
no mutation when the account id is unknown or when an expense exceeds
`saldo + limite_cheque_especial` (`ContaCorrente`) resp. `saldo_caixa`
(`ContaInvestimento`); otherwise it returns `True` having applied exactly
the debit or credit and appended exactly one matching `Transacao`. -/
theorem registrar_transacao_atomica (g : Estado) (id_conta descricao : String)
    (valor : ℚ) (tipo : String) (data_transacao : Data)
    (categoria observacao tag : String) (tid : String)
    (htipo : tipo = "Receita" ∨ tipo = "Despesa") :
    registrarTransacao g id_conta descricao valor tipo data_transacao categoria
      observacao tag tid =
    registrarTransacaoSpec g id_conta descricao valor tipo data_transacao
      categoria observacao tag tid := by
  have hRD : (("Receita" : String) == "Despesa") = false := by decide
  have hRR : (("Receita" : String) == "Receita") = true := by decide
  have hDD : (("Despesa" : String) == "Despesa") = true := by decide
  have hDR : (("Despesa" : String) == "Receita") = false := by decide
  have hRnD : ¬ (("Receita" : String) = "Despesa") := by decide
  rcases hb : buscarContaPorId g id_conta with _ | conta
  · simp [registrarTransacao, registrarTransacaoSpec, hb]
  rcases htipo with rfl | rfl
  · have hcond : ¬ (("Receita" : String) = "Despesa" ∧
        contaSemFundos conta valor) := fun hcon => hRnD hcon.1
    cases conta with
    | corrente c =>
      simp only [registrarTransacao, registrarTransacaoSpec, hb, hRR, hRD,
        if_true, if_neg hcond, Prod.mk.injEq, Estado.mk.injEq, atualizarConta,
        true_and, and_true]
      exact atualizarPrimeiro_congr hb rfl
    | investimento c =>
      simp only [registrarTransacao, registrarTransacaoSpec, hb, hRR, hRD,
        if_true, if_neg hcond, Prod.mk.injEq, Estado.mk.injEq, atualizarConta,
        true_and, and_true]
      exact atualizarPrimeiro_congr hb rfl
  · cases conta with
    | corrente c =>
      by_cases h3 : c.saldo + c.limite_cheque_especial < valor
      · have hcond : ("Despesa" : String) = "Despesa" ∧
            contaSemFundos (Conta.corrente c) valor := ⟨rfl, h3⟩
        simp [registrarTransacao, registrarTransacaoSpec, hb, h3, hDR, hDD,
          hcond]
      · have hcond : ¬ (("Despesa" : String) = "Despesa" ∧
            contaSemFundos (Conta.corrente c) valor) := fun hcon => h3 hcon.2
        have hcf : ¬ contaSemFundos (Conta.corrente c) valor := h3
        simp only [registrarTransacao, registrarTransacaoSpec, hb, hDR, hDD,
          Bool.false_eq_true, if_false, if_true, if_neg h3, if_neg hcond,
          if_neg hcf, Prod.mk.injEq, Estado.mk.injEq, atualizarConta,
          true_and, and_true]
        exact atualizarPrimeiro_congr hb rfl
    | investimento c =>
      by_cases h3 : c.saldo_caixa < valor
      · have hcond : ("Despesa" : String) = "Despesa" ∧
            contaSemFundos (Conta.investimento c) valor := ⟨rfl, h3⟩
        simp [registrarTransacao, registrarTransacaoSpec, hb, h3, hDR, hDD,
          hcond]
      · have hcond : ¬ (("Despesa" : String) = "Despesa" ∧
            contaSemFundos (Conta.investimento c) valor) :=
          fun hcon => h3 hcon.2
        have hcf : ¬ contaSemFundos (Conta.investimento c) valor := h3
        simp only [registrarTransacao, registrarTransacaoSpec, hb, hDR, hDD,
          Bool.false_eq_true, if_false, if_true, if_neg h3, if_neg hcond,
          if_neg hcf, Prod.mk.injEq, Estado.mk.injEq, atualizarConta,
          true_and, and_true]
        exact atualizarPrimeiro_congr hb rfl

/-- Witness for C8: a concrete expense of 30 on a checking account with
balance 20 and overdraft limit 15 — within disposable funds — posts
atomically, matching the specification function. -/
theorem registrar_transacao_atomica_witness :
    registrarTransacao
      ⟨[.corrente ⟨"a", "Banco A", "", 20, 15, false⟩], [], [], [], [],
        categoriasPadrao, []⟩
      "a" "Mercado" 30 "Despesa" ⟨2025, 12, 10⟩ "Alimentação" "" "" "t1" =
    registrarTransacaoSpec
      ⟨[.corrente ⟨"a", "Banco A", "", 20, 15, false⟩], [], [], [], [],
        categoriasPadrao, []⟩
      "a" "Mercado" 30 "Despesa" ⟨2025, 12, 10⟩ "Alimentação" "" "" "t1" :=
  registrar_transacao_atomica _ _ _ _ _ _ _ _ _ _ (Or.inr rfl)

/-- The holdings list of the investment account with the given id (empty for
missing or checking accounts). -/
def ativosDe (g : Estado) (id_conta : String) : List Ativo :=
  match buscarContaPorId g id_conta with
  | some (.investimento c) => c.ativos
  | _ => []

/-- The cash balance of the investment account with the given id. -/
def saldoCaixaDe (g : Estado) (id_conta : String) : Option ℚ :=
  match buscarContaPorId g id_conta with
  | some (.investimento c) => some c.saldo_caixa
  | _ => none

/-- The balance of the checking account with the given id. -/
def saldoDe (g : Estado) (id_conta : String) : Option ℚ :=
  match buscarContaPorId g id_conta with
  | some (.corrente c) => some c.saldo
  | _ => none

theorem find?_atualizarPrimeiro {p : α → Bool} {f : α → α} {l : List α}
    {a : α} (hfind : l.find? p = some a) (hfa : p (f a) = true) :
    (atualizarPrimeiro p f l).find? p = some (f a) := by
  induction l with
  | nil => simp [List.find?] at hfind
  | cons y ys ih =>
    by_cases hp : p y
    · rw [List.find?_cons_of_pos _ hp, Option.some_inj] at hfind
      subst hfind
      simp [atualizarPrimeiro, hp, List.find?_cons_of_pos _ hfa]
    · rw [List.find?_cons_of_neg _ hp] at hfind
      simp only [atualizarPrimeiro, if_neg hp]
      rw [List.find?_cons_of_neg _ hp]
      exact ih hfind

theorem atualizarOuAdicionarAtivo_sem_correspondencia {ativos : List Ativo}
    {ticker : String} {quantidade preco_medio : ℚ} {tipo_ativo : String}
    (hnone : ∀ a ∈ ativos,
      (a.ticker == strUpper ticker && a.tipo_ativo == tipo_ativo) = false) :
    atualizarOuAdicionarAtivo ativos ticker quantidade preco_medio tipo_ativo =
      ativos ++ [Ativo.novo ticker quantidade preco_medio tipo_ativo] := by
  induction ativos with
  | nil => rfl
  | cons b resto ih =>
    have hb := hnone b (by simp)
    simp only [atualizarOuAdicionarAtivo, hb, Bool.false_eq_true, if_false,
      List.cons_append, List.cons.injEq, true_and]
    exact ih (fun a ha => hnone a (by simp [ha]))

theorem atualizarOuAdicionarAtivo_ultimo {ativos : List Ativo} {b : Ativo}
    {ticker : String} {quantidade preco_medio : ℚ} {tipo_ativo : String}
    (hnone : ∀ a ∈ ativos,
      (a.ticker == strUpper ticker && a.tipo_ativo == tipo_ativo) = false)
    (hb : (b.ticker == strUpper ticker && b.tipo_ativo == tipo_ativo) = true)
    (hq : 0 < b.quantidade + quantidade) :
    atualizarOuAdicionarAtivo (ativos ++ [b]) ticker quantidade preco_medio
        tipo_ativo =
      ativos ++ [{ b with
        preco_medio := (b.preco_medio * b.quantidade +
          preco_medio * quantidade) / (b.quantidade + quantidade),
        quantidade := b.quantidade + quantidade }] := by
  induction ativos with
  | nil => simp [atualizarOuAdicionarAtivo, hb, hq]
  | cons x resto ih =>
    have hx := hnone x (by simp)
    simp only [List.cons_append, atualizarOuAdicionarAtivo, hx,
      Bool.false_eq_true, if_false, List.cons.injEq, true_and]
    exact ih (fun a ha => hnone a (by simp [ha]))

/-- C6: On an investment account holding no position for the pair
(upper-cased ticker, asset class), buying `q1` units at `p1` and then `q2`
units at `p2` — both quantities and prices positive, cash sufficient both
times — succeeds and leaves exactly one holding for that pair, with quantity
`q1 + q2` and average cost `(q1*p1 + q2*p2) / (q1 + q2)`. -/
theorem compra_dupla_faz_media_ponderada (g : Estado)
    (id_conta ticker : String) (q1 p1 q2 p2 : ℚ) (tipo_ativo : String)
    (d1 d2 : Data) (tid1 tid2 : String) (c : ContaInvestimento)
    (hb : buscarContaPorId g id_conta = some (.investimento c))
    (hnone : ∀ a ∈ c.ativos,
      (a.ticker == strUpper ticker && a.tipo_ativo == tipo_ativo) = false)
    (hq1 : 0 < q1) (hp1 : 0 < p1) (hq2 : 0 < q2) (hp2 : 0 < p2)
    (hcash1 : ¬ (c.saldo_caixa < q1 * p1))
    (hcash2 : ¬ (c.saldo_caixa - q1 * p1 < q2 * p2)) :
    (comprarAtivo g id_conta ticker q1 p1 tipo_ativo d1 tid1).1 = true ∧
    (comprarAtivo (comprarAtivo g id_conta ticker q1 p1 tipo_ativo d1 tid1).2
      id_conta ticker q2 p2 tipo_ativo d2 tid2).1 = true ∧
    (ativosDe (comprarAtivo
        (comprarAtivo g id_conta ticker q1 p1 tipo_ativo d1 tid1).2
        id_conta ticker q2 p2 tipo_ativo d2 tid2).2 id_conta).filter
      (fun a => a.ticker == strUpper ticker && a.tipo_ativo == tipo_ativo) =
      [⟨strUpper ticker, q1 + q2, (q1 * p1 + q2 * p2) / (q1 + q2),
        tipo_ativo⟩] := by
  have hb' : g.contas.find? (fun x => x.id_conta == id_conta) =
      some (Conta.investimento c) := hb
  have hpred : (fun x : Conta => x.id_conta == id_conta)
      (Conta.investimento c) = true :=
    List.find?_some (p := fun x : Conta => x.id_conta == id_conta) hb'
  have hnovo : ((Ativo.novo ticker q1 p1 tipo_ativo).ticker ==
      strUpper ticker && (Ativo.novo ticker q1 p1 tipo_ativo).tipo_ativo ==
      tipo_ativo) = true := by simp [Ativo.novo]
  have h1 : comprarAtivo g id_conta ticker q1 p1 tipo_ativo d1 tid1 =
      (true, { g with
        contas := atualizarConta g.contas id_conta (fun x =>
          match x with
          | .investimento ci =>
            .investimento { ci with
              saldo_caixa := ci.saldo_caixa - q1 * p1,
              ativos := atualizarOuAdicionarAtivo ci.ativos ticker q1 p1
                tipo_ativo }
          | y => y),
        transacoes := g.transacoes ++
          [⟨tid1, c.id_conta, "Compra de " ++ ticker, q1 * p1, "Despesa", d1,
            "Investimentos", "", ""⟩] }) := by
    simp [comprarAtivo, hb, hcash1]
  have hbusca2 : buscarContaPorId (comprarAtivo g id_conta ticker q1 p1
      tipo_ativo d1 tid1).2 id_conta =
      some (.investimento { c with
        saldo_caixa := c.saldo_caixa - q1 * p1,
        ativos := c.ativos ++ [Ativo.novo ticker q1 p1 tipo_ativo] }) := by
    rw [h1]
    have := find?_atualizarPrimeiro (f := fun x =>
      match x with
      | Conta.investimento ci =>
        Conta.investimento { ci with
          saldo_caixa := ci.saldo_caixa - q1 * p1,
          ativos := atualizarOuAdicionarAtivo ci.ativos ticker q1 p1
            tipo_ativo }
      | y => y) hb hpred
    simpa [buscarContaPorId, atualizarConta,
      atualizarOuAdicionarAtivo_sem_correspondencia hnone] using this
  refine ⟨by rw [h1], ?_, ?_⟩
  · generalize hS : (comprarAtivo g id_conta ticker q1 p1 tipo_ativo d1
      tid1).2 = S
    rw [hS] at hbusca2
    simp [comprarAtivo, hbusca2, hcash2]
  · generalize hS : (comprarAtivo g id_conta ticker q1 p1 tipo_ativo d1
      tid1).2 = S
    rw [hS] at hbusca2
    have hq12 : 0 < (Ativo.novo ticker q1 p1 tipo_ativo).quantidade + q2 := by
      simp only [Ativo.novo]
      linarith
    have h2 := @atualizarOuAdicionarAtivo_ultimo c.ativos
      (Ativo.novo ticker q1 p1 tipo_ativo) ticker q2 p2 tipo_ativo hnone
      hnovo hq12
    simp only [Ativo.novo] at h2
    have hpred2 : (fun x : Conta => x.id_conta == id_conta)
        (Conta.investimento { c with
          saldo_caixa := c.saldo_caixa - q1 * p1,
          ativos := c.ativos ++ [Ativo.novo ticker q1 p1 tipo_ativo] }) =
        true := by simpa [Conta.id_conta] using hpred
    have hfind2 : S.contas.find? (fun x => x.id_conta == id_conta) =
        some (.investimento { c with
          saldo_caixa := c.saldo_caixa - q1 * p1,
          ativos := c.ativos ++ [Ativo.novo ticker q1 p1 tipo_ativo] }) :=
      hbusca2
    have hbusca3 := find?_atualizarPrimeiro (f := fun x =>
      match x with
      | Conta.investimento ci =>
        Conta.investimento { ci with
          saldo_caixa := ci.saldo_caixa - q2 * p2,
          ativos := atualizarOuAdicionarAtivo ci.ativos ticker q2 p2
            tipo_ativo }
      | y => y) hfind2 hpred2
    simp only [comprarAtivo, buscarContaPorId, hfind2, if_neg hcash2,
      ativosDe, atualizarConta]
    rw [hbusca3]
    simp only [h2, Ativo.novo, List.filter_append]
    have hfilresto : c.ativos.filter (fun a => a.ticker == strUpper ticker &&
        a.tipo_ativo == tipo_ativo) = [] := by
      rw [List.filter_eq_nil]
      intro a ha
      simp [hnone a ha]
    rw [hfilresto]
    simp only [List.nil_append, List.filter, hnovo]
    have hcomm : p1 * q1 + p2 * q2 = q1 * p1 + q2 * p2 := by ring
    simp only [beq_self_eq_true, Bool.and_self, hcomm]

/-- Witness for C6: buying 10 units at 10.00 and then 10 units at 20.00 on a
fresh account with cash 1000 leaves one holding of 20 units at average cost
15.00. -/
theorem compra_dupla_faz_media_ponderada_witness :
    (ativosDe (comprarAtivo
      (comprarAtivo
        ⟨[.investimento ⟨"inv1", "Corretora", "", 1000, [], false⟩], [], [],
          [], [], categoriasPadrao, []⟩
        "inv1" "AAA" 10 10 "Outro" ⟨2025, 12, 10⟩ "t1").2
      "inv1" "AAA" 10 20 "Outro" ⟨2025, 12, 11⟩ "t2").2 "inv1").filter
      (fun a => a.ticker == strUpper "AAA" && a.tipo_ativo == "Outro") =
    [⟨"AAA", 20, 15, "Outro"⟩] := by
  have h := compra_dupla_faz_media_ponderada
    ⟨[.investimento ⟨"inv1", "Corretora", "", 1000, [], false⟩], [], [], [],
      [], categoriasPadrao, []⟩
    "inv1" "AAA" 10 10 10 20 "Outro" ⟨2025, 12, 10⟩ ⟨2025, 12, 11⟩ "t1" "t2"
    ⟨"inv1", "Corretora", "", 1000, [], false⟩
    (by decide) (by simp) (by norm_num) (by norm_num) (by norm_num)
    (by norm_num) (by norm_num) (by norm_num)
  rw [h.2.2]
  have hup : strUpper "AAA" = "AAA" := by decide
  norm_num [hup]

/-- C10: `vender_ativo` matches the holding by ticker string alone and,
when the sale empties it, removes from the holdings list every `Ativo` whose
ticker equals the sold ticker — the position of any other asset class with
the same ticker included: the surviving list is exactly the sub-list of
holdings with a different ticker. -/
theorem venda_total_remove_por_ticker (g : Estado) (id_conta ticker : String)
    (preco_venda : ℚ) (data_venda : Data) (observacao tid : String)
    (c : ContaInvestimento) (ativo : Ativo)
    (hb : buscarContaPorId g id_conta = some (.investimento c))
    (ha : c.ativos.find? (fun a => a.ticker == ticker) = some ativo) :
    (venderAtivo g id_conta ticker ativo.quantidade preco_venda data_venda
      observacao tid).1 = true ∧
    ativosDe (venderAtivo g id_conta ticker ativo.quantidade preco_venda
      data_venda observacao tid).2 id_conta =
      c.ativos.filter (fun a => a.ticker != ticker) := by
  have hb' : g.contas.find? (fun x => x.id_conta == id_conta) =
      some (Conta.investimento c) := hb
  have hpred : (fun x : Conta => x.id_conta == id_conta)
      (Conta.investimento c) = true :=
    List.find?_some (p := fun x : Conta => x.id_conta == id_conta) hb'
  have hlt : ¬ (ativo.quantidade < ativo.quantidade) := lt_irrefl _
  have hle : ativo.quantidade - ativo.quantidade ≤ 0 := by simp
  constructor
  · simp [venderAtivo, hb, ha, hlt, hle]
  · have hfind := find?_atualizarPrimeiro (f := fun x =>
      match x with
      | Conta.investimento ci =>
        Conta.investimento { ci with
          saldo_caixa := ci.saldo_caixa + ativo.quantidade * preco_venda,
          ativos := c.ativos.filter (fun a => a.ticker != ticker) }
      | y => y) hb' hpred
    simp only [venderAtivo, buscarContaPorId, hb', ha, if_neg hlt, if_pos hle,
      ativosDe, atualizarConta]
    rw [hfind]

/-- Witness for C10: an account holding `AAA` both as crypto (5 units) and as
a domestic equity (3 units); selling the full 5 crypto units removes both
positions, leaving no holdings at all. -/
theorem venda_total_remove_por_ticker_witness :
    (venderAtivo
      ⟨[.investimento ⟨"inv1", "Corretora", "", 0,
          [⟨"AAA", 5, 10, "Cripto"⟩, ⟨"AAA", 3, 7, "Ação BR"⟩], false⟩],
        [], [], [], [], categoriasPadrao, []⟩
      "inv1" "AAA" 5 12 ⟨2025, 12, 10⟩ "" "tv").1 = true ∧
    ativosDe (venderAtivo
      ⟨[.investimento ⟨"inv1", "Corretora", "", 0,
          [⟨"AAA", 5, 10, "Cripto"⟩, ⟨"AAA", 3, 7, "Ação BR"⟩], false⟩],
        [], [], [], [], categoriasPadrao, []⟩
      "inv1" "AAA" 5 12 ⟨2025, 12, 10⟩ "" "tv").2 "inv1" = [] := by
  have h := venda_total_remove_por_ticker
    ⟨[.investimento ⟨"inv1", "Corretora", "", 0,
        [⟨"AAA", 5, 10, "Cripto"⟩, ⟨"AAA", 3, 7, "Ação BR"⟩], false⟩],
      [], [], [], [], categoriasPadrao, []⟩
    "inv1" "AAA" 12 ⟨2025, 12, 10⟩ "" "tv"
    ⟨"inv1", "Corretora", "", 0,
      [⟨"AAA", 5, 10, "Cripto"⟩, ⟨"AAA", 3, 7, "Ação BR"⟩], false⟩
    ⟨"AAA", 5, 10, "Cripto"⟩ (by decide) (by decide)
  refine ⟨h.1, ?_⟩
  rw [h.2]
  decide

/-- C3, amended: Reversing an asset-purchase entry whose holding has
too little quantity left does **not** fail: whenever the matched holding's
remaining quantity after reversal would be at most `0.000001` — in
particular whenever it is smaller than the reversed quantity
`valor / preco_medio` — `remover_transacao` returns `True`, drops every
holding with that ticker, refunds the full entry amount to `saldo_caixa`,
and removes the entry.  (The claim's `False`-and-no-mutation behavior does
not exist in the code: see the counterexample.) -/
theorem remocao_de_compra_excessiva_sucede (g : Estado) (idt : String)
    (transacao : Transacao) (ci : ContaInvestimento) (ativo : Ativo)
    (htf : g.transacoes.find? (fun t => t.id_transacao == idt) =
      some transacao)
    (hb : buscarContaPorId g transacao.id_conta = some (.investimento ci))
    (htipo : transacao.tipo = "Despesa")
    (hcat : transacao.categoria = "Investimentos")
    (hdesc : strContem transacao.descricao "Compra de" = true)
    (haf : ci.ativos.find? (fun a => strUpper a.ticker ==
      strUpper (strStrip (strSubst transacao.descricao "Compra de " ""))) =
      some ativo)
    (hpm : ativo.preco_medio ≠ 0)
    (hlow : ativo.quantidade - transacao.valor / ativo.preco_medio ≤
      1 / 1000000) :
    (removerTransacao g idt).1 = true ∧
    ativosDe (removerTransacao g idt).2 transacao.id_conta =
      ci.ativos.filter (fun a => strUpper a.ticker !=
        strUpper (strStrip (strSubst transacao.descricao "Compra de " ""))) ∧
    saldoCaixaDe (removerTransacao g idt).2 transacao.id_conta =
      some (ci.saldo_caixa + transacao.valor) ∧
    (removerTransacao g idt).2.transacoes =
      g.transacoes.filter (fun t => t.id_transacao != idt) := by
  have hb' : g.contas.find? (fun x => x.id_conta == transacao.id_conta) =
      some (Conta.investimento ci) := hb
  have hpred : ((Conta.investimento ci).id_conta == transacao.id_conta) =
      true :=
    List.find?_some (p := fun x : Conta => x.id_conta == transacao.id_conta)
      hb'
  have h1 : (transacao.tipo == "Receita") = false := by simp [htipo]
  have h2 : (transacao.tipo == "Despesa") = true := by simp [htipo]
  have h5 : (transacao.categoria == "Investimentos" &&
      strContem transacao.descricao "Compra de") = true := by
    simp [hcat, hdesc]
  refine ⟨?_, ?_, ?_, ?_⟩
  · simp [removerTransacao, htf, buscarContaPorId, hb']
  · simp only [removerTransacao, htf, buscarContaPorId, hb', h1, h2, h5,
      Bool.false_eq_true, if_false, if_true, ativosDe, atualizarConta]
    rw [find?_atualizarPrimeiro hb']
    · simp only [haf, if_pos hlow]
    · simp only [haf, if_pos hlow, Conta.id_conta]
      exact hpred
  · simp only [removerTransacao, htf, buscarContaPorId, hb', h1, h2, h5,
      Bool.false_eq_true, if_false, if_true, saldoCaixaDe, atualizarConta]
    rw [find?_atualizarPrimeiro hb']
    · simp only [haf, if_pos hlow]
    · simp only [haf, if_pos hlow, Conta.id_conta]
      exact hpred
  · simp [removerTransacao, htf, buscarContaPorId, hb']

/-- The C3 scenario: the account holds 1 unit of `AAA` at average cost 10,
but the asset-purchase entry being reversed carries amount 50, i.e. a
reversal of 5 units — more than held. -/
def cenarioC3 : Estado :=
  ⟨[.investimento ⟨"inv1", "Corretora", "", 0, [⟨"AAA", 1, 10, "Outro"⟩],
      false⟩],
   [⟨"t1", "inv1", "Compra de AAA", 50, "Despesa", ⟨2025, 12, 10⟩,
      "Investimentos", "", ""⟩],
   [], [], [], categoriasPadrao, []⟩

/-- Witness for C3 (amended): on `cenarioC3` the reversal succeeds, empties
the holdings list, refunds the 50 to the cash balance and deletes the
entry. -/
theorem remocao_de_compra_excessiva_sucede_witness :
    (removerTransacao cenarioC3 "t1").1 = true ∧
    ativosDe (removerTransacao cenarioC3 "t1").2 "inv1" = [] ∧
    saldoCaixaDe (removerTransacao cenarioC3 "t1").2 "inv1" = some (0 + 50) ∧
    (removerTransacao cenarioC3 "t1").2.transacoes = [] := by
  have h := remocao_de_compra_excessiva_sucede cenarioC3 "t1"
    ⟨"t1", "inv1", "Compra de AAA", 50, "Despesa", ⟨2025, 12, 10⟩,
      "Investimentos", "", ""⟩
    ⟨"inv1", "Corretora", "", 0, [⟨"AAA", 1, 10, "Outro"⟩], false⟩
    ⟨"AAA", 1, 10, "Outro"⟩
    (by decide) (by decide) rfl rfl (by decide) (by decide) (by norm_num)
    (by norm_num)
  refine ⟨h.1, ?_, ?_, ?_⟩
  · rw [h.2.1]
    decide
  · rw [h.2.2.1]
  · rw [h.2.2.2]
    decide

/-- C3 as stated is false: On `cenarioC3` — holding quantity 1, reversal
of 5 units — `remover_transacao` returns `True` and mutates the state
(holdings emptied, cash refunded, entry removed) instead of failing with no
mutation. -/
theorem remocao_de_compra_excessiva_nao_falha :
    (removerTransacao cenarioC3 "t1").1 = true ∧
    (removerTransacao cenarioC3 "t1").2 ≠ cenarioC3 ∧
    ativosDe (removerTransacao cenarioC3 "t1").2 "inv1" = [] := by
  have hsc : strContem "Compra de AAA" "Compra de" = true := by decide
  have htd : strStrip (strSubst "Compra de AAA" "Compra de " "") = "AAA" := by
    decide
  have hup : strUpper "AAA" = "AAA" := by decide
  have hEval : removerTransacao cenarioC3 "t1" =
      (true,
        ⟨[.investimento ⟨"inv1", "Corretora", "", 50, [], false⟩], [], [],
          [], [], categoriasPadrao, []⟩) := by
    simp [cenarioC3, removerTransacao, buscarContaPorId, List.find?,
      atualizarConta, atualizarPrimeiro, Conta.id_conta, hsc, htd, hup]
    norm_num
  rw [hEval]
  refine ⟨rfl, ?_, ?_⟩
  · intro hcontra
    have htr := congrArg Estado.transacoes hcontra
    simp [cenarioC3] at htr
  · simp [ativosDe, buscarContaPorId, List.find?, Conta.id_conta]

/-- The next calendar month (December rolls to January of the next year). -/
def proximoCiclo (d : Data) : Nat × Nat :=
  if d.mes == 12 then (d.ano + 1, 1) else (d.ano, d.mes + 1)

/-- From the spec's words for `calculateCycle`: the effective closing day of
the purchase's (year, month) — the custom override for that month if
present, else the card's closing day — clamped to the days in that month. -/
def diaFechamentoEfetivo (cartao : CartaoCredito) (d : Data) : Nat :=
  min (dictGet cartao.fechamentos_customizados (chaveMes d.ano d.mes)
    cartao.dia_fechamento) (diasNoMes d.ano d.mes)

/-- From the spec's words for `calculateCycle`: next month's cycle exactly
when the purchase day exceeds the effective closing day, else the purchase's
own month. -/
def calcularCicloCompraSpec (cartao : CartaoCredito) (d : Data) : Nat × Nat :=
  if d.dia > diaFechamentoEfetivo cartao d then proximoCiclo d
  else (d.ano, d.mes)

/-- C7: For every existing card and calendar-valid purchase date,
`calcular_ciclo_compra` computes exactly the specification's cycle — the
custom-override-aware, days-in-month-clamped closing day decides — and it
returns the next calendar month exactly when the purchase day exceeds that
effective closing day (the clamp is invisible because a valid day never
exceeds the days in its month). -/
theorem ciclo_de_compra_usa_dia_efetivo (g : Estado) (id_cartao : String)
    (cartao : CartaoCredito) (d : Data)
    (hb : buscarCartaoPorId g id_cartao = some cartao) (hd : d.valida) :
    calcularCicloCompra g id_cartao d = calcularCicloCompraSpec cartao d ∧
    (calcularCicloCompra g id_cartao d = proximoCiclo d ↔
      d.dia > diaFechamentoEfetivo cartao d) := by
  obtain ⟨hm1, hm2, hd1, hd2⟩ := hd
  by_cases h : d.dia > dictGet cartao.fechamentos_customizados
      (chaveMes d.ano d.mes) cartao.dia_fechamento
  · have h' : d.dia > diaFechamentoEfetivo cartao d := by
      simp only [diaFechamentoEfetivo]
      omega
    by_cases h12 : (d.mes == 12) = true
    · simp [calcularCicloCompra, hb, calcularCicloCompraSpec, proximoCiclo,
        h, h', h12]
    · simp [calcularCicloCompra, hb, calcularCicloCompraSpec, proximoCiclo,
        h, h', h12]
  · have h' : ¬ d.dia > diaFechamentoEfetivo cartao d := by
      simp only [diaFechamentoEfetivo]
      omega
    have hne : (d.ano, d.mes) ≠ proximoCiclo d := by
      simp only [proximoCiclo]
      by_cases h12 : (d.mes == 12) = true
      · simp only [h12, if_true, Prod.mk.injEq, ne_eq, not_and]
        intro hano
        omega
      · simp only [h12, Bool.false_eq_true, if_false, Prod.mk.injEq, ne_eq,
          not_and]
        intro hano
        omega
    simp [calcularCicloCompra, hb, calcularCicloCompraSpec, h, h', hne]

/-- Witness for C7: a card closing on day 2 with no override; a purchase on
2025-11-30 (after the closing day) lands in the December 2025 cycle, and a
purchase on 2025-12-01 (on or before the closing day) also lands in the
December 2025 cycle. -/
theorem ciclo_de_compra_usa_dia_efetivo_witness :
    calcularCicloCompra
      ⟨[], [], [⟨"card1", "Nubank", "", 2, 10, []⟩], [], [],
        categoriasPadrao, []⟩ "card1" ⟨2025, 11, 30⟩ = (2025, 12) ∧
    calcularCicloCompra
      ⟨[], [], [⟨"card1", "Nubank", "", 2, 10, []⟩], [], [],
        categoriasPadrao, []⟩ "card1" ⟨2025, 12, 1⟩ = (2025, 12) := by
  have h1 := ciclo_de_compra_usa_dia_efetivo
    ⟨[], [], [⟨"card1", "Nubank", "", 2, 10, []⟩], [], [],
      categoriasPadrao, []⟩ "card1" ⟨"card1", "Nubank", "", 2, 10, []⟩
    ⟨2025, 11, 30⟩ (by decide) (by decide)
  have h2 := ciclo_de_compra_usa_dia_efetivo
    ⟨[], [], [⟨"card1", "Nubank", "", 2, 10, []⟩], [], [],
      categoriasPadrao, []⟩ "card1" ⟨"card1", "Nubank", "", 2, 10, []⟩
    ⟨2025, 12, 1⟩ (by decide) (by decide)
  rw [h1.1, h2.1]
  constructor <;> decide

/-- The C1 scenario: a checking account with balance 1000, a card named
`"Nubank"` closing on day 28, and one open charge of 500 assigned to the
December 2025 statement. -/
def cenarioC1 : Estado :=
  ⟨[.corrente ⟨"cc1", "Banco", "", 1000, 0, false⟩],
   [],
   [⟨"card1", "Nubank", "", 28, 10, []⟩],
   [⟨"comp1", "card1", "Mercado", 500, ⟨2025, 12, 10⟩, "Outros", 1, 1,
      "comp1", "", "", none, ⟨2025, 11, 20⟩⟩],
   [], categoriasPadrao, []⟩

/-- Closing the December 2025 invoice of `cenarioC1`. -/
def fechamentoC1 : Option Fatura × Estado :=
  fecharFatura cenarioC1 "card1" ⟨2025, 12, 2⟩ ⟨2025, 12, 10⟩ "fat1"

/-- Paying that invoice from the checking account. -/
def pagamentoC1 : Bool × Estado :=
  pagarFatura fechamentoC1.2 "fat1" "cc1" ⟨2025, 12, 9⟩ "tpag"

/-- Reopening the paid invoice. -/
def reaberturaC1 : Bool × Estado := reabrirFatura pagamentoC1.2 "fat1"

/-- The state after `fechamentoC1`. -/
def estadoAposFechamento : Estado :=
  ⟨[.corrente ⟨"cc1", "Banco", "", 1000, 0, false⟩],
   [],
   [⟨"card1", "Nubank", "", 28, 10, [("2025-12", 2)]⟩],
   [⟨"comp1", "card1", "Mercado", 500, ⟨2025, 12, 10⟩, "Outros", 1, 1,
      "comp1", "", "", some "fat1", ⟨2025, 11, 20⟩⟩],
   [⟨"fat1", "card1", ⟨2025, 12, 2⟩, ⟨2025, 12, 10⟩, 500, "Fechada"⟩],
   categoriasPadrao, []⟩

/-- The state after `pagamentoC1`. -/
def estadoAposPagamento : Estado :=
  ⟨[.corrente ⟨"cc1", "Banco", "", 500, 0, false⟩],
   [⟨"tpag", "cc1", "Pagamento Fatura 12/2025", 500, "Despesa",
      ⟨2025, 12, 9⟩, "Cartão de Crédito", "", ""⟩],
   [⟨"card1", "Nubank", "", 28, 10, [("2025-12", 2)]⟩],
   [⟨"comp1", "card1", "Mercado", 500, ⟨2025, 12, 10⟩, "Outros", 1, 1,
      "comp1", "", "", some "fat1", ⟨2025, 11, 20⟩⟩],
   [⟨"fat1", "card1", ⟨2025, 12, 2⟩, ⟨2025, 12, 10⟩, 500, "Paga"⟩],
   categoriasPadrao, []⟩

/-- The state after `reaberturaC1`. -/
def estadoAposReabertura : Estado :=
  ⟨[.corrente ⟨"cc1", "Banco", "", 500, 0, false⟩],
   [⟨"tpag", "cc1", "Pagamento Fatura 12/2025", 500, "Despesa",
      ⟨2025, 12, 9⟩, "Cartão de Crédito", "", ""⟩],
   [⟨"card1", "Nubank", "", 28, 10, [("2025-12", 2)]⟩],
   [⟨"comp1", "card1", "Mercado", 500, ⟨2025, 12, 10⟩, "Outros", 1, 1,
      "comp1", "", "", none, ⟨2025, 11, 20⟩⟩],
   [], categoriasPadrao, []⟩

/-- C1: the code diverges from the claim, and from the docstring of
`reabrir_fatura` itself, at this input.  Closing the 500-charge invoice and paying it
from the account with balance 1000 leaves 500; `reabrir_fatura` then returns
`True`, unlinks the charge and deletes the invoice — but the search for the
payment entry demands the card's name (`"Nubank"`) inside the description
`"Pagamento Fatura 12/2025"`, which `pagar_fatura` never writes there, so
the balance stays at 500 instead of returning to 1000 and the payment entry
is not removed. -/
theorem reabrir_fatura_nao_estorna_pagamento :
    fechamentoC1.1 =
      some ⟨"fat1", "card1", ⟨2025, 12, 2⟩, ⟨2025, 12, 10⟩, 500, "Fechada"⟩ ∧
    pagamentoC1.1 = true ∧
    saldoDe pagamentoC1.2 "cc1" = some 500 ∧
    reaberturaC1.1 = true ∧
    saldoDe reaberturaC1.2 "cc1" = some 500 ∧
    reaberturaC1.2.transacoes = pagamentoC1.2.transacoes ∧
    reaberturaC1.2.faturas = [] ∧
    reaberturaC1.2.compras_cartao.map (fun c => c.id_fatura) = [none] := by
  have hch : chaveMes 2025 12 = "2025-12" := by decide
  have hA : fechamentoC1 =
      (some ⟨"fat1", "card1", ⟨2025, 12, 2⟩, ⟨2025, 12, 10⟩, 500, "Fechada"⟩,
       estadoAposFechamento) := by
    simp [fechamentoC1, cenarioC1, estadoAposFechamento, fecharFatura,
      buscarCartaoPorId, List.find?, dictSet, atualizarPrimeiro, hch]
  have hmba : "Pagamento Fatura " ++ mesBarraAno ⟨2025, 12, 10⟩ =
      "Pagamento Fatura 12/2025" := by decide
  have hB : pagamentoC1 = (true, estadoAposPagamento) := by
    have : pagamentoC1 =
        pagarFatura estadoAposFechamento "fat1" "cc1" ⟨2025, 12, 9⟩ "tpag" :=
      by rw [pagamentoC1, hA]
    rw [this]
    simp [estadoAposFechamento, estadoAposPagamento, pagarFatura,
      buscarContaPorId, List.find?, Conta.id_conta, atualizarConta,
      atualizarPrimeiro, hmba]
    norm_num
  have hx1 : strContem "Pagamento Fatura 12/2025"
      ("Pagamento Fatura " ++ mesBarraAno ⟨2025, 12, 10⟩) = true := by decide
  have hx2 : strContem "Pagamento Fatura 12/2025" "Nubank" = false := by
    decide
  have hC : reaberturaC1 = (true, estadoAposReabertura) := by
    have : reaberturaC1 = reabrirFatura estadoAposPagamento "fat1" := by
      rw [reaberturaC1, hB]
    rw [this]
    simp [estadoAposPagamento, estadoAposReabertura, reabrirFatura,
      reabrirEstorno, buscarTransacaoPagamento, buscarCartaoPorId,
      buscarContaPorId, List.find?, Conta.id_conta, atualizarConta,
      atualizarPrimeiro, List.eraseP, hx1, hx2]
  rw [hA, hB, hC]
  refine ⟨rfl, rfl, by decide, rfl, by decide, by decide, rfl, rfl⟩

/-- Holdings carry tickers already in upper case (every `Ativo` the Python
constructor ever builds is normalized this way). -/
def contaComTickersNormalizados : Conta → Prop
  | .corrente _ => True
  | .investimento ci => ∀ a ∈ ci.ativos, strUpper a.ticker = a.ticker

instance : DecidablePred contaComTickersNormalizados := fun c =>
  match c with
  | .corrente _ => inferInstanceAs (Decidable True)
  | .investimento ci =>
    inferInstanceAs (Decidable (∀ a ∈ ci.ativos, _ = _))

/-- Shape invariants every state built through the Python constructors has:
tickers are upper-cased and `id_compra_original` (defaulted to `id_compra`
on construction) is never the empty string. -/
def EstadoBemFormado (g : Estado) : Prop :=
  (∀ c ∈ g.contas, contaComTickersNormalizados c) ∧
  (∀ cc ∈ g.compras_cartao, cc.id_compra_original ≠ "")

instance : DecidablePred EstadoBemFormado := fun g =>
  inferInstanceAs (Decidable (_ ∧ _))

/-- C9, amended: For every well-formed state whose category list is
non-empty, loading the snapshot written by `salvar_dados` reproduces the
state exactly — balances, archived flags, holdings, transactions, cards
with their custom closing days, charges, invoices, categories and tags.
(For a state whose category list is empty the claim fails: the loader keeps
its current — on a fresh manager the default — category list instead; see
the counterexample.) -/
theorem instantaneo_ida_e_volta (g : Estado) (cats : List String)
    (hbf : EstadoBemFormado g) (hcats : g.categorias ≠ []) :
    carregarDados (salvarDados g) cats = g := by
  obtain ⟨htick, hcompra⟩ := hbf
  obtain ⟨contas, transacoes, cartoes, compras, faturas, cats0, tags⟩ := g
  simp only [carregarDados, salvarDados, List.map_map]
  have hempty : cats0.isEmpty = false := by
    cases cats0 with
    | nil => exact absurd rfl hcats
    | cons a l => rfl
  simp only [hempty, Bool.false_eq_true, if_false, Estado.mk.injEq,
    and_true, true_and]
  constructor
  · have : ∀ c ∈ contas, (carregarConta ∘ salvarConta) c = c := by
      intro c hc
      cases c with
      | corrente cc => rfl
      | investimento ci =>
        obtain ⟨idc, nome, logo, sc, ativos, arq⟩ := ci
        simp only [Function.comp_apply, salvarConta, carregarConta,
          Conta.investimento.injEq, ContaInvestimento.mk.injEq, true_and,
          and_true]
        have : ∀ a ∈ ativos,
            Ativo.novo a.ticker a.quantidade a.preco_medio a.tipo_ativo =
              a := by
          intro a ha
          have hup := htick _ hc a ha
          simp [Ativo.novo, hup]
        calc ativos.map (fun a =>
              Ativo.novo a.ticker a.quantidade a.preco_medio a.tipo_ativo) =
            ativos.map id := List.map_congr_left this
          _ = ativos := List.map_id ativos
    calc contas.map (carregarConta ∘ salvarConta) = contas.map id :=
        List.map_congr_left this
      _ = contas := List.map_id contas
  · have : ∀ c ∈ compras, carregarCompra c = c := by
      intro c hc
      have hne : (c.id_compra_original == "") = false := by
        simpa using hcompra c hc
      simp [carregarCompra, hne]
    calc compras.map carregarCompra = compras.map id :=
        List.map_congr_left this
      _ = compras := List.map_id compras

/-- Witness for C9 (amended): a state with a checking account, an investment
account holding an upper-cased ticker, a card with a custom closing day, a
charge, an invoice, the default categories and one tag round-trips
exactly. -/
theorem instantaneo_ida_e_volta_witness :
    carregarDados (salvarDados
      ⟨[.corrente ⟨"a", "Banco", "logo", 120, 50, true⟩,
        .investimento ⟨"b", "Corretora", "", 30, [⟨"AAA", 2, 10, "Cripto"⟩],
          false⟩],
       [⟨"t1", "a", "Mercado", 25, "Despesa", ⟨2025, 12, 10⟩, "Outros", "o",
          "g"⟩],
       [⟨"card1", "Nubank", "", 28, 10, [("2025-12", 2)]⟩],
       [⟨"comp1", "card1", "Mercado", 500, ⟨2025, 12, 10⟩, "Outros", 2, 1,
          "orig1", "", "", some "fat1", ⟨2025, 11, 20⟩⟩],
       [⟨"fat1", "card1", ⟨2025, 12, 2⟩, ⟨2025, 12, 10⟩, 500, "Paga"⟩],
       categoriasPadrao, ["viagem"]⟩) categoriasPadrao =
      ⟨[.corrente ⟨"a", "Banco", "logo", 120, 50, true⟩,
        .investimento ⟨"b", "Corretora", "", 30, [⟨"AAA", 2, 10, "Cripto"⟩],
          false⟩],
       [⟨"t1", "a", "Mercado", 25, "Despesa", ⟨2025, 12, 10⟩, "Outros", "o",
          "g"⟩],
       [⟨"card1", "Nubank", "", 28, 10, [("2025-12", 2)]⟩],
       [⟨"comp1", "card1", "Mercado", 500, ⟨2025, 12, 10⟩, "Outros", 2, 1,
          "orig1", "", "", some "fat1", ⟨2025, 11, 20⟩⟩],
       [⟨"fat1", "card1", ⟨2025, 12, 2⟩, ⟨2025, 12, 10⟩, 500, "Paga"⟩],
       categoriasPadrao, ["viagem"]⟩ :=
  instantaneo_ida_e_volta _ categoriasPadrao (by decide) (by decide)

/-- The C9 counterexample state: its category list has been emptied (the
manager's `remover_categoria` can do this), everything else ordinary. -/
def cenarioC9 : Estado :=
  ⟨[.corrente ⟨"a", "Banco", "", 5, 0, true⟩], [], [], [], [], [], ["x"]⟩

/-- C9 as stated is false: Saving and loading `cenarioC9` does not
reproduce it: the empty category list is not restored — the loader keeps
the default category list it held before loading. -/
theorem instantaneo_nao_restaura_categorias_vazias :
    carregarDados (salvarDados cenarioC9) categoriasPadrao ≠ cenarioC9 ∧
    (carregarDados (salvarDados cenarioC9) categoriasPadrao).categorias =
      categoriasPadrao ∧
    cenarioC9.categorias = [] := by
  refine ⟨?_, by decide, rfl⟩
  intro hcontra
  have := congrArg Estado.categorias hcontra
  simp [carregarDados, salvarDados, cenarioC9, categoriasPadrao] at this

end SistemaFinanceiro
